import Mathlib

/-!
Verification of the document-extractor pipeline (shallow embedding).

This file embeds the decision logic of the document extraction pipeline:
the Python string helpers used by template post-processing
(`str.strip`, `str.title`, `str.upper`, `str.lower`, `str.replace`,
`str.isdigit`), Python truthiness over JSON-like values, the template
registry (`src/templates/*.py`), the OCR fallback pipeline
(`src/extraction/ocr_engine.py`), the LLM fallback pipeline and response
parsing (`src/extraction/llm_extractor.py`), and the orchestrator response
construction (`src/processor.py`, `DocumentProcessor._build_response` and
`DocumentProcessor._classify_document`), together with the pydantic range
constraint on `overall_confidence` (`src/output/schemas.py`).

Conventions of the embedding:
* Python `float` values are modelled as exact rationals (`ℚ`).
* Character classes (alphabetic, whitespace, digits, case mapping) are
  modelled over the ASCII range, which covers every character these code
  paths case-map; characters outside the range are left unchanged, as
  Python leaves caseless characters unchanged.
* Python exceptions are modelled with `Except String`; a `.error` value is
  an exception propagating out of the modelled function.
* Python dictionaries are association lists with first-match lookup and
  replace-first/append-last update, the observable behaviour of `dict`
  for the operations used by the code.
-/

/-! ## Python character primitives (ASCII model) -/

/-- Codepoint of a character. -/
def cp (c : Char) : Nat := c.toNat

/-- Model of the Python lowercase test over ASCII. -/
def isLowerC (c : Char) : Bool := decide (97 ≤ cp c) && decide (cp c ≤ 122)

/-- Model of the Python uppercase test over ASCII. -/
def isUpperC (c : Char) : Bool := decide (65 ≤ cp c) && decide (cp c ≤ 90)

/-- Model of the Python cased/alphabetic test over ASCII. -/
def isAlphaC (c : Char) : Bool := isUpperC c || isLowerC c

/-- Model of the Python whitespace test (`str.strip` default set), ASCII part. -/
def isSpaceC (c : Char) : Bool :=
  decide (cp c = 32) || (decide (9 ≤ cp c) && decide (cp c ≤ 13))

/-- Model of the Python ASCII decimal digit test. -/
def isDigitC (c : Char) : Bool := decide (48 ≤ cp c) && decide (cp c ≤ 57)

/-- Uppercase one character (ASCII model of Python case mapping). -/
def toUpperC (c : Char) : Char :=
  if isLowerC c then Char.ofNat (cp c - 32) else c

/-- Lowercase one character (ASCII model of Python case mapping). -/
def toLowerC (c : Char) : Char :=
  if isUpperC c then Char.ofNat (cp c + 32) else c

theorem cp_ofNat (n : Nat) (h : n < 55296) : cp (Char.ofNat n) = n := by
  have hv : Nat.isValidChar n := Or.inl h
  simp [cp, Char.ofNat, hv]
  rfl

theorem cp_lt (c : Char) : cp c < 1114112 := by
  have h := c.valid
  rcases h with h | h
  · exact Nat.lt_trans h (by norm_num)
  · exact h.2

theorem cp_toUpperC (c : Char) (h : isLowerC c = true) :
    cp (toUpperC c) = cp c - 32 := by
  have hb : (97 ≤ cp c ∧ cp c ≤ 122) := by
    simpa [isLowerC, Bool.and_eq_true] using h
  rw [toUpperC, if_pos h, cp_ofNat]
  omega

theorem cp_toLowerC (c : Char) (h : isUpperC c = true) :
    cp (toLowerC c) = cp c + 32 := by
  have hb : (65 ≤ cp c ∧ cp c ≤ 90) := by
    simpa [isUpperC, Bool.and_eq_true] using h
  rw [toLowerC, if_pos h, cp_ofNat]
  omega

theorem isUpperC_iff (c : Char) : isUpperC c = true ↔ (65 ≤ cp c ∧ cp c ≤ 90) := by
  simp [isUpperC, Bool.and_eq_true]

theorem isLowerC_iff (c : Char) : isLowerC c = true ↔ (97 ≤ cp c ∧ cp c ≤ 122) := by
  simp [isLowerC, Bool.and_eq_true]

theorem isUpperC_toUpperC (c : Char) (h : isLowerC c = true) :
    isUpperC (toUpperC c) = true := by
  have hb := (isLowerC_iff c).mp h
  rw [isUpperC_iff, cp_toUpperC c h]
  omega

theorem isLowerC_toLowerC (c : Char) (h : isUpperC c = true) :
    isLowerC (toLowerC c) = true := by
  have hb := (isUpperC_iff c).mp h
  rw [isLowerC_iff, cp_toLowerC c h]
  omega

theorem not_isLowerC_of_isUpperC (c : Char) (h : isUpperC c = true) :
    isLowerC c = false := by
  have hb := (isUpperC_iff c).mp h
  rw [← Bool.not_eq_true, isLowerC_iff]
  omega

theorem not_isUpperC_of_isLowerC (c : Char) (h : isLowerC c = true) :
    isUpperC c = false := by
  have hb := (isLowerC_iff c).mp h
  rw [← Bool.not_eq_true, isUpperC_iff]
  omega

theorem toUpperC_of_not_lower (c : Char) (h : isLowerC c = false) :
    toUpperC c = c := by
  simp [toUpperC, h]

theorem toLowerC_of_not_upper (c : Char) (h : isUpperC c = false) :
    toLowerC c = c := by
  simp [toLowerC, h]

theorem toUpperC_toUpperC (c : Char) : toUpperC (toUpperC c) = toUpperC c := by
  by_cases h : isLowerC c = true
  · exact toUpperC_of_not_lower _
      (not_isLowerC_of_isUpperC _ (isUpperC_toUpperC c h))
  · have h2 := toUpperC_of_not_lower c (by simpa using h)
    rw [h2, h2]

theorem toLowerC_toLowerC (c : Char) : toLowerC (toLowerC c) = toLowerC c := by
  by_cases h : isUpperC c = true
  · exact toLowerC_of_not_upper _
      (not_isUpperC_of_isLowerC _ (isLowerC_toLowerC c h))
  · have h2 := toLowerC_of_not_upper c (by simpa using h)
    rw [h2, h2]

theorem isAlphaC_toUpperC (c : Char) : isAlphaC (toUpperC c) = isAlphaC c := by
  by_cases h : isLowerC c = true
  · have h1 := isUpperC_toUpperC c h
    have h2 := not_isUpperC_of_isLowerC c h
    simp [isAlphaC, h, h1, h2]
  · rw [toUpperC_of_not_lower c (by simpa using h)]

theorem isAlphaC_toLowerC (c : Char) : isAlphaC (toLowerC c) = isAlphaC c := by
  by_cases h : isUpperC c = true
  · have h1 := isLowerC_toLowerC c h
    have h2 := not_isLowerC_of_isUpperC c h
    simp [isAlphaC, h, h1, h2]
  · rw [toLowerC_of_not_upper c (by simpa using h)]

theorem isSpaceC_false_of_between (c : Char) (h1 : 65 ≤ cp c) (h2 : cp c ≤ 122) :
    isSpaceC c = false := by
  have e1 : ¬(cp c = 32) := by omega
  have e2 : ¬(cp c ≤ 13) := by omega
  simp [isSpaceC, e1, e2]

theorem isSpaceC_toUpperC (c : Char) : isSpaceC (toUpperC c) = isSpaceC c := by
  by_cases h : isLowerC c = true
  · have h1 := (isLowerC_iff c).mp h
    have h2 := cp_toUpperC c h
    rw [isSpaceC_false_of_between c (by omega) (by omega),
      isSpaceC_false_of_between (toUpperC c) (by omega) (by omega)]
  · rw [toUpperC_of_not_lower c (by simpa using h)]

theorem isSpaceC_toLowerC (c : Char) : isSpaceC (toLowerC c) = isSpaceC c := by
  by_cases h : isUpperC c = true
  · have h1 := (isUpperC_iff c).mp h
    have h2 := cp_toLowerC c h
    rw [isSpaceC_false_of_between c (by omega) (by omega),
      isSpaceC_false_of_between (toLowerC c) (by omega) (by omega)]
  · rw [toLowerC_of_not_upper c (by simpa using h)]

/-! ## Python string operations (`str.lower`, `str.upper`, `str.strip`,
`str.title`, `str.replace`, `str.isdigit`) -/

/-- Model of Python `str.lower` (ASCII case mapping). -/
def pyLower (s : String) : String := ⟨s.data.map toLowerC⟩

/-- Model of Python `str.upper` (ASCII case mapping). -/
def pyUpper (s : String) : String := ⟨s.data.map toUpperC⟩

/-- List-level strip: remove leading and trailing whitespace. -/
def stripL (l : List Char) : List Char :=
  ((l.dropWhile isSpaceC).reverse.dropWhile isSpaceC).reverse

/-- Model of Python `str.strip()` with no argument. -/
def pyStrip (s : String) : String := ⟨stripL s.data⟩

/-- Mapping of one character under Python `str.title`: a cased character is
uppercased when the previous character is not cased (argument `prev`) and
lowercased otherwise; other characters are unchanged. -/
def titleChar (prev : Bool) (c : Char) : Char :=
  if isAlphaC c then (if prev then toLowerC c else toUpperC c) else c

/-- List-level model of Python `str.title`. The boolean argument carries
whether the previous character was cased. -/
def titleL : Bool → List Char → List Char
  | _, [] => []
  | prev, c :: rest => titleChar prev c :: titleL (isAlphaC c) rest

/-- Model of Python `str.title()`. -/
def pyTitle (s : String) : String := ⟨titleL false s.data⟩

/-- Model of Python `s.replace(" ", "").replace("-", "")` as used on
identifier fields (removal of all spaces and hyphens). -/
def removeSpaceDash (s : String) : String :=
  ⟨(s.data.filter (fun c => !decide (cp c = 32))).filter
    (fun c => !decide (cp c = 45))⟩

/-- Model of Python `str.isdigit` (ASCII digits; nonempty). -/
def pyIsDigit (s : String) : Bool := !s.data.isEmpty && s.data.all isDigitC

/-- Model of Python `needle in haystack` substring membership. -/
def pyContains (haystack needle : String) : Bool :=
  haystack.data.tails.any (fun t => needle.data.isPrefixOf t)

/-- Model of Python `s.lower().startswith(p)` style prefix tests. -/
def pyStartsWith (s p : String) : Bool := p.data.isPrefixOf s.data

/-! ### Algebra of strip / title / upper -/

theorem dropWhile_length_le {α : Type} (p : α → Bool) (l : List α) :
    (l.dropWhile p).length ≤ l.length :=
  (List.dropWhile_sublist p).length_le

theorem dropWhile_eq_of_length {α : Type} {p : α → Bool} {l : List α}
    (h : (l.dropWhile p).length = l.length) : l.dropWhile p = l := by
  induction l with
  | nil => rfl
  | cons a t ih =>
    rw [List.dropWhile_cons] at h ⊢
    by_cases hp : p a = true
    · rw [if_pos hp] at h
      have := dropWhile_length_le p t
      simp at h
      omega
    · rw [if_neg hp]

theorem head_dropWhile_false {α : Type} (p : α → Bool) (l : List α) :
    ∀ c ∈ (l.dropWhile p).head?, p c = false := by
  induction l with
  | nil => intro c hc; simp at hc
  | cons a t ih =>
    intro c hc
    rw [List.dropWhile_cons] at hc
    by_cases hp : p a = true
    · rw [if_pos hp] at hc; exact ih c hc
    · rw [if_neg hp] at hc
      simp at hc
      subst hc
      simpa using hp

theorem dropWhile_eq_self_of_head {α : Type} {p : α → Bool} {l : List α}
    (h : ∀ c ∈ l.head?, p c = false) : l.dropWhile p = l := by
  cases l with
  | nil => rfl
  | cons a t =>
    have := h a (by simp)
    rw [List.dropWhile_cons, if_neg (by simp [this])]

theorem dropWhile_idem {α : Type} (p : α → Bool) (l : List α) :
    (l.dropWhile p).dropWhile p = l.dropWhile p :=
  dropWhile_eq_self_of_head (head_dropWhile_false p l)

theorem getLast?_dropWhile {α : Type} (p : α → Bool) (l : List α)
    (h : l.dropWhile p ≠ []) : (l.dropWhile p).getLast? = l.getLast? := by
  induction l with
  | nil => simp at h
  | cons a t ih =>
    rw [List.dropWhile_cons] at h ⊢
    by_cases hp : p a = true
    · rw [if_pos hp] at h ⊢
      have ht : t ≠ [] := by
        intro he; subst he; simp at h
      rw [ih h, List.getLast?_cons]
      cases he : t.getLast? with
      | none =>
        exfalso
        cases t with
        | nil => exact ht rfl
        | cons b u => rw [List.getLast?_cons] at he; simp at he
      | some x => simp [he]
    · rw [if_neg hp]

theorem stripL_front (l : List Char) :
    (stripL l).dropWhile isSpaceC = stripL l := by
  apply dropWhile_eq_self_of_head
  intro c hc
  unfold stripL at hc
  rw [List.head?_reverse] at hc
  by_cases hn : ((l.dropWhile isSpaceC).reverse.dropWhile isSpaceC) = []
  · rw [hn] at hc; simp at hc
  · rw [getLast?_dropWhile _ _ hn, List.getLast?_reverse] at hc
    exact head_dropWhile_false isSpaceC l c hc

theorem stripL_back (l : List Char) :
    (stripL l).reverse.dropWhile isSpaceC = (stripL l).reverse := by
  unfold stripL
  rw [List.reverse_reverse]
  exact dropWhile_idem _ _

theorem stripL_of_parts {l : List Char}
    (h1 : l.dropWhile isSpaceC = l)
    (h2 : l.reverse.dropWhile isSpaceC = l.reverse) : stripL l = l := by
  unfold stripL
  rw [h1, h2, List.reverse_reverse]

theorem stripL_stripL (l : List Char) : stripL (stripL l) = stripL l :=
  stripL_of_parts (stripL_front l) (stripL_back l)

theorem dropWhile_transfer {α β : Type} {p : α → Bool} {q : β → Bool}
    {l1 : List α} {l2 : List β} (hm : l1.map p = l2.map q)
    (h : l1.dropWhile p = l1) : l2.dropWhile q = l2 := by
  apply dropWhile_eq_self_of_head
  intro c hc
  cases l2 with
  | nil => simp at hc
  | cons b u =>
    simp at hc
    subst hc
    cases l1 with
    | nil => simp at hm
    | cons a t =>
      simp at hm
      have hpa : p a = false := by
        have := head_dropWhile_false p (a :: t)
        rw [h] at this
        exact this a (by simp)
      rw [← hm.1, hpa]

theorem stripL_transfer {l1 l2 : List Char}
    (hm : l1.map isSpaceC = l2.map isSpaceC) (h : stripL l1 = l1) :
    stripL l2 = l2 := by
  have hlen : (stripL l1).length = l1.length := by rw [h]
  have hle1 := dropWhile_length_le isSpaceC l1
  have hle2 := dropWhile_length_le isSpaceC (l1.dropWhile isSpaceC).reverse
  have hlen2 : (stripL l1).length =
      ((l1.dropWhile isSpaceC).reverse.dropWhile isSpaceC).length := by
    unfold stripL; rw [List.length_reverse]
  rw [hlen] at hlen2
  have hfront : l1.dropWhile isSpaceC = l1 := by
    apply dropWhile_eq_of_length
    have : (l1.dropWhile isSpaceC).reverse.length = (l1.dropWhile isSpaceC).length := by
      rw [List.length_reverse]
    omega
  have hback : l1.reverse.dropWhile isSpaceC = l1.reverse := by
    apply dropWhile_eq_of_length
    rw [hfront] at hlen2
    rw [List.length_reverse]
    omega
  have hmr : l1.reverse.map isSpaceC = l2.reverse.map isSpaceC := by
    rw [List.map_reverse, List.map_reverse, hm]
  exact stripL_of_parts (dropWhile_transfer hm hfront)
    (dropWhile_transfer hmr hback)

theorem isSpaceC_titleChar (b : Bool) (c : Char) :
    isSpaceC (titleChar b c) = isSpaceC c := by
  unfold titleChar
  by_cases ha : isAlphaC c = true
  · rw [if_pos ha]
    cases b
    · rw [if_neg (by simp)]
      exact isSpaceC_toUpperC c
    · rw [if_pos rfl]
      exact isSpaceC_toLowerC c
  · rw [if_neg ha]

theorem isAlphaC_titleChar (b : Bool) (c : Char) :
    isAlphaC (titleChar b c) = isAlphaC c := by
  unfold titleChar
  by_cases ha : isAlphaC c = true
  · rw [if_pos ha]
    cases b
    · rw [if_neg (by simp)]
      exact isAlphaC_toUpperC c
    · rw [if_pos rfl]
      exact isAlphaC_toLowerC c
  · rw [if_neg ha]

theorem titleChar_titleChar (b : Bool) (c : Char) :
    titleChar b (titleChar b c) = titleChar b c := by
  by_cases ha : isAlphaC c = true
  · cases b
    · have h1 : titleChar false c = toUpperC c := by
        unfold titleChar
        rw [if_pos ha, if_neg (by simp)]
      have ha2 : isAlphaC (toUpperC c) = true := by
        rw [isAlphaC_toUpperC]; exact ha
      rw [h1]
      unfold titleChar
      rw [if_pos ha2, if_neg (by simp)]
      exact toUpperC_toUpperC c
    · have h1 : titleChar true c = toLowerC c := by
        unfold titleChar
        rw [if_pos ha, if_pos rfl]
      have ha2 : isAlphaC (toLowerC c) = true := by
        rw [isAlphaC_toLowerC]; exact ha
      rw [h1]
      unfold titleChar
      rw [if_pos ha2, if_pos rfl]
      exact toLowerC_toLowerC c
  · have h1 : titleChar b c = c := by
      unfold titleChar
      rw [if_neg ha]
    rw [h1, h1]

theorem titleL_pattern (b : Bool) (l : List Char) :
    (titleL b l).map isSpaceC = l.map isSpaceC := by
  induction l generalizing b with
  | nil => rfl
  | cons c t ih =>
    simp only [titleL, List.map_cons, ih, isSpaceC_titleChar]

theorem titleL_idem (b : Bool) (l : List Char) :
    titleL b (titleL b l) = titleL b l := by
  induction l generalizing b with
  | nil => rfl
  | cons c t ih =>
    simp only [titleL, titleChar_titleChar, isAlphaC_titleChar, ih]

theorem mem_stripL {c : Char} {l : List Char} (h : c ∈ stripL l) : c ∈ l := by
  unfold stripL at h
  rw [List.mem_reverse] at h
  have h2 := (List.dropWhile_sublist isSpaceC).subset h
  rw [List.mem_reverse] at h2
  exact (List.dropWhile_sublist isSpaceC).subset h2

theorem upper_pattern (l : List Char) :
    (l.map toUpperC).map isSpaceC = l.map isSpaceC := by
  rw [List.map_map]
  exact List.map_congr_left (fun c _ => isSpaceC_toUpperC c)

theorem pyStrip_pyStrip (s : String) : pyStrip (pyStrip s) = pyStrip s :=
  congrArg String.mk (stripL_stripL s.data)

theorem pyTitle_pyTitle (s : String) : pyTitle (pyTitle s) = pyTitle s :=
  congrArg String.mk (titleL_idem false s.data)

theorem pyStrip_pyTitle_pyStrip (s : String) :
    pyStrip (pyTitle (pyStrip s)) = pyTitle (pyStrip s) := by
  apply congrArg String.mk
  exact stripL_transfer (titleL_pattern false (stripL s.data)).symm
    (stripL_stripL s.data)

/-- Repeating `.strip().title()` (the name normalization of the templates)
is the same as applying it once. -/
theorem name_norm_idem (s : String) :
    pyTitle (pyStrip (pyTitle (pyStrip s))) = pyTitle (pyStrip s) := by
  rw [pyStrip_pyTitle_pyStrip, pyTitle_pyTitle]

theorem pyStrip_pyUpper_pyStrip (s : String) :
    pyStrip (pyUpper (pyStrip s)) = pyUpper (pyStrip s) := by
  apply congrArg String.mk
  exact stripL_transfer (upper_pattern (stripL s.data)).symm
    (stripL_stripL s.data)

theorem pyUpper_of_stripped_upper (s : String) :
    pyUpper (pyStrip (pyUpper s)) = pyStrip (pyUpper s) := by
  apply congrArg String.mk
  show (stripL (s.data.map toUpperC)).map toUpperC = stripL (s.data.map toUpperC)
  have : ∀ c ∈ stripL (s.data.map toUpperC), toUpperC c = c := by
    intro c hc
    have h2 := mem_stripL hc
    rcases List.mem_map.mp h2 with ⟨d, _, hd⟩
    rw [← hd]
    exact toUpperC_toUpperC d
  calc (stripL (s.data.map toUpperC)).map toUpperC
      = (stripL (s.data.map toUpperC)).map id := List.map_congr_left this
    _ = stripL (s.data.map toUpperC) := List.map_id _

/-- Repeating `.upper().strip()` (the PAN number normalization) is the
same as applying it once. -/
theorem upper_norm_idem (s : String) :
    pyStrip (pyUpper (pyStrip (pyUpper s))) = pyStrip (pyUpper s) := by
  rw [pyUpper_of_stripped_upper, pyStrip_pyStrip]

/-! ### Digit strings -/

/-- Model of the Python formatting
`f-string a[:4] space a[4:8] space a[8:]` used for Aadhaar numbers. -/
def groupAadhaar (s : String) : String :=
  ⟨s.data.take 4 ++ [Char.ofNat 32] ++ (s.data.drop 4).take 4 ++
    [Char.ofNat 32] ++ s.data.drop 8⟩

theorem filter_of_all_digit {l : List Char} (p : Char → Bool)
    (hp : ∀ c, isDigitC c = true → p c = true)
    (h : l.all isDigitC = true) : l.filter p = l := by
  rw [List.filter_eq_self]
  intro a ha
  exact hp a (List.all_eq_true.mp h a ha)

theorem digit_ne_space (c : Char) (h : isDigitC c = true) :
    (!decide (cp c = 32)) = true := by
  have hb : 48 ≤ cp c ∧ cp c ≤ 57 := by simpa [isDigitC] using h
  have hne : ¬(cp c = 32) := by omega
  simp [hne]

theorem digit_ne_dash (c : Char) (h : isDigitC c = true) :
    (!decide (cp c = 45)) = true := by
  have hb : 48 ≤ cp c ∧ cp c ≤ 57 := by simpa [isDigitC] using h
  have hne : ¬(cp c = 45) := by omega
  simp [hne]

theorem removeSpaceDash_of_digits (s : String) (h : s.data.all isDigitC = true) :
    removeSpaceDash s = s := by
  unfold removeSpaceDash
  rw [filter_of_all_digit _ digit_ne_space h, filter_of_all_digit _ digit_ne_dash h]

theorem all_digit_take (l : List Char) (n : Nat) (h : l.all isDigitC = true) :
    (l.take n).all isDigitC = true := by
  rw [List.all_eq_true] at h ⊢
  intro a ha
  exact h a (List.mem_of_mem_take ha)

theorem all_digit_drop (l : List Char) (n : Nat) (h : l.all isDigitC = true) :
    (l.drop n).all isDigitC = true := by
  rw [List.all_eq_true] at h ⊢
  intro a ha
  exact h a (List.mem_of_mem_drop ha)

theorem removeSpaceDash_groupAadhaar (s : String)
    (h : s.data.all isDigitC = true) :
    removeSpaceDash (groupAadhaar s) = s := by
  unfold removeSpaceDash groupAadhaar
  apply congrArg String.mk
  have hsp1 : (fun c => !decide (cp c = 32)) (Char.ofNat 32) = false := by
    simp [cp_ofNat 32 (by norm_num)]
  have ht : (s.data.take 4).all isDigitC = true := all_digit_take _ _ h
  have hm : ((s.data.drop 4).take 4).all isDigitC = true :=
    all_digit_take _ _ (all_digit_drop _ _ h)
  have hd : (s.data.drop 8).all isDigitC = true := all_digit_drop _ _ h
  simp only [List.filter_append, List.filter_cons, List.filter_nil, hsp1,
    Bool.false_eq_true, if_false]
  rw [filter_of_all_digit _ digit_ne_space ht,
    filter_of_all_digit _ digit_ne_space hm,
    filter_of_all_digit _ digit_ne_space hd]
  simp only [List.append_nil, List.nil_append]
  rw [filter_of_all_digit _ digit_ne_dash ht,
    filter_of_all_digit _ digit_ne_dash hm,
    filter_of_all_digit _ digit_ne_dash hd]
  have h8 : s.data.drop 8 = List.drop 4 (List.drop 4 s.data) := by
    rw [List.drop_drop]
  rw [h8, List.append_assoc, List.take_append_drop, List.take_append_drop]

/-! ## JSON-like Python values

Values flowing through the pipeline are those produced by `json.loads`:
`None`, booleans, integers, floats, strings, lists and dictionaries.
Floats are modelled as exact rationals. -/

inductive Json where
  | null : Json
  | bool : Bool → Json
  | int : Int → Json
  | float : ℚ → Json
  | str : String → Json
  | arr : List Json → Json
  | obj : List (String × Json) → Json
deriving Repr

/-- Model of Python truthiness for the values above. -/
def pyTruthy : Json → Bool
  | .null => false
  | .bool b => b
  | .int n => !decide (n = 0)
  | .float q => !decide (q = 0)
  | .str s => !s.data.isEmpty
  | .arr l => !l.isEmpty
  | .obj l => !l.isEmpty

/-- Smallest decimal exponent that makes the rational an integer, searched
up to 40 digits (enough for every value the code produces). -/
def decExp (q : ℚ) : Option ℕ :=
  (List.range 40).find? (fun k => (q * (10 : ℚ) ^ k).den == 1)

/-- Model of Python `str(float)` for decimal-representable rationals, e.g.
`3.75` prints as a plain decimal and integral values print with a trailing
`.0`. Values whose shortest Python representation uses an exponent are not
reproduced digit-for-digit (no theorem depends on them); they render to a
digit-free placeholder. -/
def floatRepr (q : ℚ) : String :=
  (if q < 0 then "-" else "") ++
  (match decExp |q| with
   | some 0 => toString |q|.num ++ ".0"
   | some k =>
     let n := ((|q| * (10 : ℚ) ^ k).num).toNat
     let s := toString n
     let s2 := if s.length ≤ k then
         String.mk (List.replicate (k + 1 - s.length) (Char.ofNat 48)) ++ s
       else s
     String.mk (s2.data.take (s2.length - k)) ++ "." ++
       String.mk (s2.data.drop (s2.length - k))
   | none => "float")

mutual

/-- Model of Python `str(value)` for the JSON-like values. -/
def pyStr : Json → String
  | .null => "None"
  | .bool true => "True"
  | .bool false => "False"
  | .int n => toString n
  | .float q => floatRepr q
  | .str s => s
  | .arr l => "[" ++ pyReprList l ++ "]"
  | .obj l => "\x7b" ++ pyReprObj l ++ "\x7d"

/-- Model of Python `repr(value)` (used when rendering containers). -/
def pyReprJ : Json → String
  | .null => "None"
  | .bool true => "True"
  | .bool false => "False"
  | .int n => toString n
  | .float q => floatRepr q
  | .str s => "\x27" ++ s ++ "\x27"
  | .arr l => "[" ++ pyReprList l ++ "]"
  | .obj l => "\x7b" ++ pyReprObj l ++ "\x7d"

/-- Comma-separated reprs of a list of values. -/
def pyReprList : List Json → String
  | [] => ""
  | [j] => pyReprJ j
  | j :: rest => pyReprJ j ++ ", " ++ pyReprList rest

/-- Comma-separated reprs of the items of a dictionary. -/
def pyReprObj : List (String × Json) → String
  | [] => ""
  | [(k, v)] => "\x27" ++ k ++ "\x27: " ++ pyReprJ v
  | (k, v) :: rest => "\x27" ++ k ++ "\x27: " ++ pyReprJ v ++ ", " ++ pyReprObj rest

end

/-! ## Python dictionaries -/

/-- Python `dict[str, value]`: association list, first-match lookup,
replace-in-place update, append on new key. -/
abbrev PyDict := List (String × Json)

/-- Model of Python `d.get(k)` / `d[k]` lookup. -/
def pyGet : PyDict → String → Option Json
  | [], _ => none
  | (k0, v0) :: rest, k => if k0 == k then some v0 else pyGet rest k

/-- Model of Python `d[k] = v`: replace the value of an existing key in
place, append a new binding otherwise. -/
def pySet : PyDict → String → Json → PyDict
  | [], k, v => [(k, v)]
  | (k0, v0) :: rest, k, v =>
    if k0 == k then (k0, v) :: rest else (k0, v0) :: pySet rest k v

/-- Model of Python `d.get(k, default)`. -/
def pyGetD (d : PyDict) (k : String) (v0 : Json) : Json := (pyGet d k).getD v0

/-- Truthiness of an optional lookup result (`d.get(k)` tested in `if`). -/
def truthyOpt (o : Option Json) : Bool :=
  match o with
  | some v => pyTruthy v
  | none => false

theorem pyGet_pySet_self (d : PyDict) (k : String) (v : Json) :
    pyGet (pySet d k v) k = some v := by
  induction d with
  | nil => simp [pySet, pyGet]
  | cons kv rest ih =>
    obtain ⟨k0, v0⟩ := kv
    by_cases h : k0 = k
    · subst h
      simp [pySet, pyGet]
    · have hb : (k0 == k) = false := by simp [h]
      simp [pySet, pyGet, hb, ih]

theorem pyGet_pySet_ne (d : PyDict) (k k2 : String) (v : Json) (h : k ≠ k2) :
    pyGet (pySet d k v) k2 = pyGet d k2 := by
  induction d with
  | nil =>
    have hb : (k == k2) = false := by simp [h]
    simp [pySet, pyGet, hb]
  | cons kv rest ih =>
    obtain ⟨k0, v0⟩ := kv
    by_cases h0 : k0 = k
    · subst h0
      have hb : (k0 == k0) = true := by simp
      have hb2 : (k0 == k2) = false := by simp [h]
      simp [pySet, pyGet, hb, hb2]
    · have hb : (k0 == k) = false := by simp [h0]
      simp [pySet, pyGet, hb, ih]

theorem pySet_of_get (d : PyDict) (k : String) (v : Json)
    (h : pyGet d k = some v) : pySet d k v = d := by
  induction d with
  | nil => simp [pyGet] at h
  | cons kv rest ih =>
    obtain ⟨k0, v0⟩ := kv
    by_cases h0 : k0 = k
    · subst h0
      have hb : (k0 == k0) = true := by simp
      simp [pyGet, hb] at h
      simp [pySet, hb, h]
    · have hb : (k0 == k) = false := by simp [h0]
      simp [pyGet, hb] at h
      simp [pySet, hb, ih h]

theorem pyGet_isSome_pySet (d : PyDict) (k k2 : String) (v : Json)
    (h : (pyGet d k2).isSome = true) :
    (pyGet (pySet d k v) k2).isSome = true := by
  by_cases he : k = k2
  · subst he
    rw [pyGet_pySet_self]
    rfl
  · rw [pyGet_pySet_ne d k k2 v he]
    exact h

theorem pyGet_mem (d : PyDict) (k : String) (v : Json)
    (h : pyGet d k = some v) : ∃ k0, (k0, v) ∈ d := by
  induction d with
  | nil => simp [pyGet] at h
  | cons kv rest ih =>
    obtain ⟨k0, v0⟩ := kv
    by_cases h0 : (k0 == k) = true
    · simp [pyGet, h0] at h
      exact ⟨k0, by simp [h]⟩
    · simp [pyGet, h0] at h
      rcases ih h with ⟨k1, hk1⟩
      exact ⟨k1, by simp [hk1]⟩

/-! ## Field update steps

Every post-processing block of the templates (other than the name-combining
block of the generic ID template) has the shape
`if key in d and d[key]: x = transform(d[key]); if cond: d[key] = new`.
`stepOnKey` captures that shape; `f` returns `.ok none` when the guarded
assignment does not fire, `.ok (some w)` when the key is reassigned to `w`,
and `.error` when the Python transform raises. -/

def stepOnKey (k : String) (f : Json → Except String (Option Json))
    (d : PyDict) : Except String PyDict :=
  match pyGet d k with
  | none => .ok d
  | some v =>
    if pyTruthy v then
      match f v with
      | .error e => .error e
      | .ok none => .ok d
      | .ok (some w) => .ok (pySet d k w)
    else .ok d

/-- A transform is stable when reapplying it to a value it produced
reproduces that value. -/
def StepStable (f : Json → Except String (Option Json)) : Prop :=
  ∀ v w, f v = .ok (some w) → f w = .ok (some w)

theorem stepOnKey_eq_cases (k : String) (f : Json → Except String (Option Json))
    (d : PyDict) :
    (stepOnKey k f d = .ok d ∧
      ∀ v, pyGet d k = some v → pyTruthy v = true → f v = .ok none) ∨
    (∃ v w, pyGet d k = some v ∧ pyTruthy v = true ∧ f v = .ok (some w) ∧
      stepOnKey k f d = .ok (pySet d k w)) ∨
    (∃ v e, pyGet d k = some v ∧ pyTruthy v = true ∧ f v = .error e ∧
      stepOnKey k f d = .error e) := by
  unfold stepOnKey
  cases hg : pyGet d k with
  | none =>
    left
    constructor
    · rfl
    · intro v hv
      simp [hg] at hv
  | some v =>
    by_cases ht : pyTruthy v = true
    · cases hv : f v with
      | error e =>
        right; right
        exact ⟨v, e, rfl, ht, hv, by simp [ht, hv]⟩
      | ok o =>
        cases o with
        | none =>
          left
          constructor
          · simp [ht, hv]
          · intro v2 hv2 ht2
            injection hv2 with hv2
            subst hv2
            exact hv
        | some w =>
          right; left
          exact ⟨v, w, rfl, ht, hv, by simp [ht, hv]⟩
    · left
      constructor
      · simp [ht]
      · intro v2 hv2 ht2
        injection hv2 with hv2
        subst hv2
        exact absurd ht2 ht

theorem stepOnKey_idem {k : String} {f : Json → Except String (Option Json)}
    {d d2 : PyDict} (hf : StepStable f) (h : stepOnKey k f d = .ok d2) :
    stepOnKey k f d2 = .ok d2 := by
  rcases stepOnKey_eq_cases k f d with ⟨he, _⟩ | ⟨v, w, hg, ht, hv, he⟩ |
      ⟨v, e, hg, ht, hv, he⟩
  · rw [he] at h
    injection h with h
    subst h
    exact he
  · rw [he] at h
    injection h with h
    subst h
    have hg2 : pyGet (pySet d k w) k = some w := pyGet_pySet_self d k w
    rcases stepOnKey_eq_cases k f (pySet d k w) with ⟨he2, _⟩ |
        ⟨v2, w2, hg3, ht3, hv3, he3⟩ | ⟨v2, e2, hg3, ht3, hv3, he3⟩
    · exact he2
    · rw [hg2] at hg3
      injection hg3 with hg3
      subst hg3
      have := hf v w hv
      rw [this] at hv3
      injection hv3 with hv3
      injection hv3 with hv3
      subst hv3
      rw [he3, pySet_of_get _ _ _ hg2]
    · rw [hg2] at hg3
      injection hg3 with hg3
      subst hg3
      rw [hf v w hv] at hv3
      exact absurd hv3 (by simp)
  · rw [he] at h
    exact absurd h (by simp)

theorem stepOnKey_get_other {k : String} {f : Json → Except String (Option Json)}
    {d d2 : PyDict} (h : stepOnKey k f d = .ok d2) (k2 : String) (hne : k ≠ k2) :
    pyGet d2 k2 = pyGet d k2 := by
  rcases stepOnKey_eq_cases k f d with ⟨he, _⟩ | ⟨v, w, hg, ht, hv, he⟩ |
      ⟨v, e, hg, ht, hv, he⟩
  · rw [he] at h
    injection h with h
    subst h
    rfl
  · rw [he] at h
    injection h with h
    subst h
    exact pyGet_pySet_ne d k k2 w hne
  · rw [he] at h
    exact absurd h (by simp)

theorem stepOnKey_fix_transfer {k : String}
    {f : Json → Except String (Option Json)} {d e : PyDict}
    (hg : pyGet d k = pyGet e k) (h : stepOnKey k f d = .ok d) :
    stepOnKey k f e = .ok e := by
  rcases stepOnKey_eq_cases k f d with ⟨he1, hnone⟩ | ⟨v, w, hgd, ht, hv, he1⟩ |
      ⟨v, er, hgd, ht, hv, he1⟩
  · unfold stepOnKey
    cases hge : pyGet e k with
    | none => rfl
    | some v =>
      by_cases ht : pyTruthy v = true
      · have hfv : f v = .ok none := hnone v (by rw [hg, hge]) ht
        simp [ht, hfv]
      · simp [ht]
  · rw [he1] at h
    injection h with h
    have hvw : v = w := by
      have h1 : pyGet (pySet d k w) k = some w := pyGet_pySet_self d k w
      rw [h, hgd] at h1
      exact Option.some.inj h1
    subst hvw
    have hge : pyGet e k = some v := by rw [← hg, hgd]
    unfold stepOnKey
    simp [hge, ht, hv, pySet_of_get _ _ _ hge]
  · rw [he1] at h
    exact absurd h (by simp)

theorem stepOnKey_keys {k : String} {f : Json → Except String (Option Json)}
    {d d2 : PyDict} (h : stepOnKey k f d = .ok d2) (k2 : String)
    (hs : (pyGet d k2).isSome = true) : (pyGet d2 k2).isSome = true := by
  rcases stepOnKey_eq_cases k f d with ⟨he, _⟩ | ⟨v, w, hg, ht, hv, he⟩ |
      ⟨v, e, hg, ht, hv, he⟩
  · rw [he] at h
    injection h with h
    subst h
    exact hs
  · rw [he] at h
    injection h with h
    subst h
    exact pyGet_isSome_pySet d k k2 w hs
  · rw [he] at h
    exact absurd h (by simp)

theorem stepOnKey_all_null {k : String}
    {f : Json → Except String (Option Json)} {d : PyDict}
    (h : ∀ kv ∈ d, kv.2 = Json.null) : stepOnKey k f d = .ok d := by
  unfold stepOnKey
  cases hg : pyGet d k with
  | none => rfl
  | some v =>
    rcases pyGet_mem d k v hg with ⟨k0, hk0⟩
    have hv : v = Json.null := h (k0, v) hk0
    subst hv
    simp [pyTruthy]

/-- Idempotence of a two-step post-processing chain on distinct keys. -/
theorem two_step_idem {k1 k2 : String}
    {f1 f2 : Json → Except String (Option Json)} (hne : k1 ≠ k2)
    (h1 : StepStable f1) (h2 : StepStable f2) {d d2 : PyDict}
    (h : (stepOnKey k1 f1 d).bind (stepOnKey k2 f2) = .ok d2) :
    (stepOnKey k1 f1 d2).bind (stepOnKey k2 f2) = .ok d2 := by
  cases hm : stepOnKey k1 f1 d with
  | error e => rw [hm] at h; exact absurd h (by simp [Except.bind])
  | ok dm =>
    rw [hm] at h
    have hstep2 : stepOnKey k2 f2 dm = .ok d2 := by
      simpa [Except.bind] using h
    have hfix1 : stepOnKey k1 f1 dm = .ok dm := stepOnKey_idem h1 hm
    have hget : pyGet dm k1 = pyGet d2 k1 :=
      (stepOnKey_get_other hstep2 k1 (fun he => hne he.symm)).symm
    have hA : stepOnKey k1 f1 d2 = .ok d2 := stepOnKey_fix_transfer hget hfix1
    have hB : stepOnKey k2 f2 d2 = .ok d2 := stepOnKey_idem h2 hstep2
    rw [hA]
    simpa [Except.bind] using hB

/-! ## Python numeric string parsing -/

/-- Numeric value of a list of ASCII digits. -/
def digitsVal (l : List Char) : Nat :=
  l.foldl (fun acc c => acc * 10 + (cp c - 48)) 0

/-- Rational value of a decimal with the given integer and fraction digits. -/
def decToRat (intPart fracPart : List Char) : ℚ :=
  (digitsVal intPart : ℚ) + (digitsVal fracPart : ℚ) / (10 : ℚ) ^ fracPart.length

/-- Value of a digit-and-optional-dot string (the strings matched by the
GPA regular expression). -/
def parseDotNum (s : String) : ℚ :=
  let ip := s.data.takeWhile isDigitC
  let rest := s.data.dropWhile isDigitC
  decToRat ip (rest.drop 1)

/-- Model of `re.search` for the pattern digit-plus, optional dot,
digit-star, returning the leftmost match. -/
def regexFindNum (s : String) : Option String :=
  match s.data.dropWhile (fun c => !isDigitC c) with
  | [] => none
  | rest =>
    let ds := rest.takeWhile isDigitC
    match rest.dropWhile isDigitC with
    | c :: tail =>
      if cp c = 46 then some ⟨ds ++ [c] ++ tail.takeWhile isDigitC⟩
      else some ⟨ds⟩
    | [] => some ⟨ds⟩

/-- Model of Python `float(s)` as a partial parse. Python accepts optional
surrounding whitespace, an optional sign, a decimal mantissa with optional
fraction, an optional exponent, and the special words inf / infinity / nan
(the special words are mapped to 0 here: only parse success is relied on,
never the value of a non-finite float; digit-group underscores are not
modelled). -/
def pyFloatParse (s : String) : Option ℚ :=
  let t := stripL s.data
  let sgn : ℚ := match t with
    | c :: _ => if cp c = 45 then -1 else 1
    | [] => 1
  let t2 : List Char := match t with
    | c :: r => if cp c = 45 ∨ cp c = 43 then r else t
    | [] => t
  let low := t2.map toLowerC
  if low = "inf".data ∨ low = "infinity".data ∨ low = "nan".data then some 0
  else
    let ip := t2.takeWhile isDigitC
    let r1 := t2.dropWhile isDigitC
    let fp : List Char := match r1 with
      | c :: r => if cp c = 46 then r.takeWhile isDigitC else []
      | [] => []
    let r2 : List Char := match r1 with
      | c :: r => if cp c = 46 then r.dropWhile isDigitC else r1
      | [] => r1
    if ip = [] ∧ fp = [] then none
    else
      match r2 with
      | [] => some (sgn * decToRat ip fp)
      | e :: r3 =>
        if cp e = 101 ∨ cp e = 69 then
          let esgn : ℤ := match r3 with
            | c :: _ => if cp c = 45 then -1 else 1
            | [] => 1
          let r4 : List Char := match r3 with
            | c :: r => if cp c = 45 ∨ cp c = 43 then r else r3
            | [] => r3
          let ed := r4.takeWhile isDigitC
          let r5 := r4.dropWhile isDigitC
          if ed = [] ∨ r5 ≠ [] then none
          else some (sgn * decToRat ip fp * (10 : ℚ) ^ (esgn * (digitsVal ed : ℤ)))
        else none

/-! ## Data model (`src/output/schemas.py`, `src/extraction`, `src/templates`) -/

/-- One recognized OCR token (`OCRWord`). -/
structure OCRWord where
  text : String
  confidence : ℚ
  bbox : Int × Int × Int × Int
deriving Repr

/-- Result of one OCR invocation (`OCRResult`). -/
structure OCRResult where
  fullText : String
  words : List OCRWord
  confidence : ℚ
  language : String := "en"
  engineUsed : String := "unknown"
deriving Repr

/-- One extracted field with confidence (`ExtractedField`). The dataclass
declares `source_text : str` but the parser can store any JSON value there,
so the model uses `Json`. -/
structure ExtractedField where
  name : String
  value : Json
  confidence : ℚ
  sourceText : Json := .str ""
deriving Repr

/-- Result of one LLM extraction (`ExtractionResult`). The `fields` dict is
an association list in insertion order; `documentType` is `Json` because
the parser stores `data.get("document_type", ...)` unvalidated. -/
structure ExtractionResult where
  documentType : Json
  fields : List (String × ExtractedField)
  rawResponse : String := ""
  modelUsed : String := ""
  success : Bool := true
  error : String := ""
deriving Repr

/-- Declaration of one schema slot (`FieldDefinition`). -/
structure FieldDefinition where
  name : String
  displayName : String
  fieldType : String
  required : Bool := true
  validationPattern : Option String := none
  description : String := ""
deriving Repr

/-- Document categories (`DocumentCategory`). -/
inductive DocumentCategory where
  | transcript | idDocument | certificate | recommendation | essay | unknown
deriving Repr, DecidableEq

/-- String value of a `DocumentCategory` member. -/
def DocumentCategory.value : DocumentCategory → String
  | .transcript => "transcript"
  | .idDocument => "id_document"
  | .certificate => "certificate"
  | .recommendation => "recommendation"
  | .essay => "essay"
  | .unknown => "unknown"

/-- Processing status (`DocumentStatus`). -/
inductive DocumentStatus where
  | pending | processing | completed | failed | requiresReview
deriving Repr, DecidableEq

/-- Supported document types (`DocumentTypeEnum`). -/
inductive DocumentTypeEnum where
  | transcript | idDocument | certificate | unknown
deriving Repr, DecidableEq

/-- String value of a `DocumentTypeEnum` member. -/
def DocumentTypeEnum.value : DocumentTypeEnum → String
  | .transcript => "transcript"
  | .idDocument => "id_document"
  | .certificate => "certificate"
  | .unknown => "unknown"

/-- Structured error (`ExtractionError`). -/
structure ExtractionError where
  code : String
  field : Option String := none
  message : String
  suggestedAction : Option String := none
deriving Repr, DecidableEq

/-- Externally visible result (`ExtractionResponse`); the timing and
timestamp fields carry no decision logic and are omitted. The pydantic
constraint `overall_confidence ∈ [0, 1]` is enforced at construction in
`buildResponse` below. -/
structure ExtractionResponse where
  documentId : String
  status : DocumentStatus
  documentType : DocumentTypeEnum
  filename : String
  extractedData : PyDict := []
  fieldConfidences : List (String × ℚ) := []
  overallConfidence : ℚ
  errors : List ExtractionError := []
  requiresReview : Bool := false
  modelUsed : String := ""
deriving Repr

/-- A document template: schema, classification keywords and
post-processing (`BaseTemplate` and its concrete subclasses). `name` is
the Python class name. Classification and validation are the shared base
implementations (no subclass overrides them). -/
structure Template where
  name : String
  category : DocumentCategory
  fieldDefs : List FieldDefinition
  keywords : List String
  postProcess : PyDict → Except String PyDict

/-! ## Template post-processing steps (from `src/templates`) -/

/-- Aadhaar number reformatting (`AadhaarCardTemplate.post_process`):
strip spaces and hyphens from `str(value)`; when 12 digits remain, store
them in grouped `XXXX XXXX XXXX` form. -/
def aadhaarNumberStep (v : Json) : Except String (Option Json) :=
  let a := removeSpaceDash (pyStr v)
  if a.length = 12 ∧ pyIsDigit a = true then .ok (some (.str (groupAadhaar a)))
  else .ok none

/-- Gender normalization of the Aadhaar template, with Hindi variants. -/
def genderStepHindi (v : Json) : Except String (Option Json) :=
  let g := pyStrip (pyUpper (pyStr v))
  if g = "M" ∨ g = "MALE" ∨ g = "पुरुष" then .ok (some (.str "Male"))
  else if g = "F" ∨ g = "FEMALE" ∨ g = "महिला" then .ok (some (.str "Female"))
  else .ok none

/-- Gender normalization of the generic ID template (no Hindi variants). -/
def genderStepPlain (v : Json) : Except String (Option Json) :=
  let g := pyStrip (pyUpper (pyStr v))
  if g = "M" ∨ g = "MALE" then .ok (some (.str "Male"))
  else if g = "F" ∨ g = "FEMALE" then .ok (some (.str "Female"))
  else .ok none

/-- PAN number normalization: `str(value).upper().strip()`. -/
def panNumberStep (v : Json) : Except String (Option Json) :=
  .ok (some (.str (pyStrip (pyUpper (pyStr v)))))

/-- Name normalization `value.strip().title()`; called without `str(...)`,
so a non-string raises `AttributeError` as in Python. -/
def stripTitleStep (v : Json) : Except String (Option Json) :=
  match v with
  | .str s => .ok (some (.str (pyTitle (pyStrip s))))
  | _ => .error "AttributeError: object has no attribute strip"

/-- UAN number normalization: remove spaces and hyphens from `str(value)`
and keep the result when it is all digits. -/
def uanNumberStep (v : Json) : Except String (Option Json) :=
  let u := removeSpaceDash (pyStr v)
  if pyIsDigit u = true then .ok (some (.str u)) else .ok none

/-- GPA normalization (`TranscriptTemplate.post_process`): search the first
number in `str(value)` and store it as a float. -/
def gpaStep (v : Json) : Except String (Option Json) :=
  match regexFindNum (pyStr v) with
  | some m => .ok (some (.float (parseDotNum m)))
  | none => .ok none

/-- Certificate title cleanup: strip, then drop at most one occurrence of
each boilerplate prefix in order (case-insensitive comparison, original
length slicing, as in the source loop). -/
def certTitleStep (v : Json) : Except String (Option Json) :=
  match v with
  | .str s =>
    let t1 := pyStrip s
    let t2 := if pyStartsWith (pyLower t1) (pyLower "Certificate of ") = true
      then String.mk (t1.data.drop ("Certificate of " : String).length) else t1
    let t3 := if pyStartsWith (pyLower t2) (pyLower "Certificate for ") = true
      then String.mk (t2.data.drop ("Certificate for " : String).length) else t2
    .ok (some (.str t3))
  | _ => .error "AttributeError: object has no attribute strip"

/-- Name combination of `IDDocumentTemplate.post_process`: when `full_name`
is falsy, build it from `first_name` and `last_name` via an f-string
(`str()` conversion, so a `None` part renders as the text None). -/
def combineNames (d : PyDict) : PyDict :=
  if truthyOpt (pyGet d "full_name") = true then d
  else
    let first := pyGetD d "first_name" (.str "")
    let last := pyGetD d "last_name" (.str "")
    if pyTruthy first || pyTruthy last then
      pySet d "full_name" (.str (pyStrip (pyStr first ++ " " ++ pyStr last)))
    else d

/-- `AadhaarCardTemplate.post_process`. -/
def aadhaarPostProcess (d : PyDict) : Except String PyDict :=
  (stepOnKey "aadhaar_number" aadhaarNumberStep d).bind
    (stepOnKey "gender" genderStepHindi)

/-- `PANCardTemplate.post_process`. -/
def panPostProcess (d : PyDict) : Except String PyDict :=
  stepOnKey "pan_number" panNumberStep d

/-- `UANCardTemplate.post_process`. -/
def uanPostProcess (d : PyDict) : Except String PyDict :=
  (stepOnKey "member_name" stripTitleStep d).bind
    (stepOnKey "uan_number" uanNumberStep)

/-- `TranscriptTemplate.post_process`. -/
def transcriptPostProcess (d : PyDict) : Except String PyDict :=
  (stepOnKey "gpa" gpaStep d).bind (stepOnKey "student_name" stripTitleStep)

/-- `CertificateTemplate.post_process`. -/
def certificatePostProcess (d : PyDict) : Except String PyDict :=
  (stepOnKey "recipient_name" stripTitleStep d).bind
    (stepOnKey "certificate_title" certTitleStep)

/-- `IDDocumentTemplate.post_process`: combine names, normalize the three
name fields in order, then normalize gender. -/
def idDocumentPostProcess (d : PyDict) : Except String PyDict :=
  (((stepOnKey "full_name" stripTitleStep (combineNames d)).bind
    (stepOnKey "first_name" stripTitleStep)).bind
    (stepOnKey "last_name" stripTitleStep)).bind
    (stepOnKey "gender" genderStepPlain)

/-- `BaseTemplate.post_process` default: identity. -/
def basePostProcess (d : PyDict) : Except String PyDict := .ok d

/-! ## Template registry (`src/templates`, registered in
`DocumentProcessor.__init__`). Description strings of field definitions
carry no logic and are left empty. -/

/-- Shorthand to declare a field definition. -/
def fdef (name displayName fieldType : String) (required : Bool) :
    FieldDefinition :=
  { name := name, displayName := displayName, fieldType := fieldType,
    required := required }

/-- `AadhaarCardTemplate`. -/
def aadhaarCardTemplate : Template where
  name := "AadhaarCardTemplate"
  category := .idDocument
  fieldDefs := [
    fdef "full_name" "Full Name" "string" true,
    fdef "aadhaar_number" "Aadhaar Number" "string" true,
    fdef "date_of_birth" "Date of Birth" "date" true,
    fdef "gender" "Gender" "string" false,
    fdef "address" "Address" "string" false,
    fdef "pincode" "PIN Code" "string" false,
    fdef "vid" "Virtual ID (VID)" "string" false]
  keywords := ["aadhaar", "uidai", "unique identification", "भारत सरकार",
    "government of india", "enrolment", "vid", "आधार"]
  postProcess := aadhaarPostProcess

/-- `PANCardTemplate`. -/
def panCardTemplate : Template where
  name := "PANCardTemplate"
  category := .idDocument
  fieldDefs := [
    fdef "full_name" "Full Name" "string" true,
    fdef "pan_number" "PAN Number" "string" true,
    fdef "fathers_name" "Father\x27s Name" "string" false,
    fdef "date_of_birth" "Date of Birth" "date" true,
    fdef "signature_name" "Name on Signature" "string" false]
  keywords := ["permanent account number", "pan", "income tax",
    "आयकर विभाग", "govt. of india", "NSDL", "UTI"]
  postProcess := panPostProcess

/-- `UANCardTemplate`. -/
def uanCardTemplate : Template where
  name := "UANCardTemplate"
  category := .idDocument
  fieldDefs := [
    fdef "member_name" "Member Name" "string" true,
    fdef "uan_number" "UAN Number" "string" true,
    fdef "date_of_birth" "Date of Birth" "date" true,
    fdef "gender" "Gender" "string" false,
    fdef "fathers_name" "Father\x27s/Husband\x27s Name" "string" false,
    fdef "aadhaar_verified" "Aadhaar Verified" "string" false,
    fdef "pan_verified" "PAN Verified" "string" false,
    fdef "bank_verified" "Bank Verified" "string" false,
    fdef "employer_name" "Employer Name" "string" false,
    fdef "establishment_id" "Establishment ID" "string" false,
    fdef "address" "Address" "string" false]
  keywords := ["uan", "universal account number", "epfo", "epf",
    "provident fund", "shram", "e-shram", "ministry of labour",
    "श्रम कार्ड", "member id", "unorganised worker"]
  postProcess := uanPostProcess

/-- `VoterIDTemplate` (no post-processing override: base identity). -/
def voterIDTemplate : Template where
  name := "VoterIDTemplate"
  category := .idDocument
  fieldDefs := [
    fdef "elector_name" "Elector\x27s Name" "string" true,
    fdef "epic_number" "EPIC Number" "string" true,
    fdef "fathers_name" "Father\x27s/Husband\x27s Name" "string" false,
    fdef "date_of_birth" "Date of Birth" "date" false,
    fdef "age" "Age" "number" false,
    fdef "gender" "Gender" "string" false,
    fdef "address" "Address" "string" false,
    fdef "polling_station" "Polling Station" "string" false,
    fdef "constituency" "Assembly Constituency" "string" false]
  keywords := ["voter", "epic", "election commission", "elector", "polling",
    "निर्वाचन", "मतदाता", "assembly constituency"]
  postProcess := basePostProcess

/-- `DrivingLicenseTemplate` (no post-processing override: base identity). -/
def drivingLicenseTemplate : Template where
  name := "DrivingLicenseTemplate"
  category := .idDocument
  fieldDefs := [
    fdef "holder_name" "Name of Holder" "string" true,
    fdef "license_number" "License Number" "string" true,
    fdef "date_of_birth" "Date of Birth" "date" true,
    fdef "blood_group" "Blood Group" "string" false,
    fdef "fathers_name" "Father\x27s/Husband\x27s Name" "string" false,
    fdef "address" "Address" "string" false,
    fdef "issue_date" "Date of Issue" "date" false,
    fdef "valid_till" "Valid Till" "date" false,
    fdef "vehicle_classes" "Vehicle Class(es)" "string" false,
    fdef "issuing_authority" "Issuing Authority (RTO)" "string" false]
  keywords := ["driving", "license", "licence", "motor vehicle", "rto",
    "transport", "lmv", "mcwg", "valid till", "blood group"]
  postProcess := basePostProcess

/-- `TranscriptTemplate`. -/
def transcriptTemplate : Template where
  name := "TranscriptTemplate"
  category := .transcript
  fieldDefs := [
    fdef "student_name" "Student Name" "string" true,
    fdef "student_id" "Student ID" "string" false,
    fdef "institution_name" "Institution Name" "string" true,
    fdef "date_of_birth" "Date of Birth" "date" false,
    fdef "graduation_date" "Graduation Date" "date" false,
    fdef "gpa" "GPA" "number" false,
    fdef "gpa_scale" "GPA Scale" "string" false,
    fdef "class_rank" "Class Rank" "string" false,
    fdef "total_credits" "Total Credits" "number" false,
    fdef "courses" "Courses" "array" false,
    fdef "degree_type" "Degree Type" "string" false]
  keywords := ["transcript", "academic record", "grade point average",
    "gpa", "credits", "course", "semester", "cumulative",
    "official transcript", "registrar"]
  postProcess := transcriptPostProcess

/-- `IDDocumentTemplate`. -/
def idDocumentTemplate : Template where
  name := "IDDocumentTemplate"
  category := .idDocument
  fieldDefs := [
    fdef "full_name" "Full Name" "string" true,
    fdef "first_name" "First Name" "string" false,
    fdef "last_name" "Last Name" "string" false,
    fdef "date_of_birth" "Date of Birth" "date" true,
    fdef "document_number" "Document Number" "string" true,
    fdef "document_type" "Document Type" "string" false,
    fdef "issue_date" "Issue Date" "date" false,
    fdef "expiry_date" "Expiry Date" "date" false,
    fdef "nationality" "Nationality" "string" false,
    fdef "gender" "Gender" "string" false,
    fdef "address" "Address" "string" false,
    fdef "place_of_birth" "Place of Birth" "string" false,
    fdef "issuing_authority" "Issuing Authority" "string" false]
  keywords := ["passport", "driver", "license", "identity", "id card",
    "national id", "date of birth", "dob", "expiry", "nationality",
    "place of issue"]
  postProcess := idDocumentPostProcess

/-- `CertificateTemplate`. -/
def certificateTemplate : Template where
  name := "CertificateTemplate"
  category := .certificate
  fieldDefs := [
    fdef "recipient_name" "Recipient Name" "string" true,
    fdef "certificate_title" "Certificate Title" "string" true,
    fdef "issuing_organization" "Issuing Organization" "string" true,
    fdef "issue_date" "Issue Date" "date" false,
    fdef "expiry_date" "Expiry Date" "date" false,
    fdef "certificate_id" "Certificate ID" "string" false,
    fdef "achievement_description" "Achievement Description" "string" false,
    fdef "course_name" "Course/Program Name" "string" false,
    fdef "grade_or_score" "Grade/Score" "string" false,
    fdef "duration" "Duration" "string" false,
    fdef "signatories" "Signatories" "array" false]
  keywords := ["certificate", "certify", "certification", "awarded",
    "achievement", "completion", "hereby", "credential", "honor",
    "recognition", "conferred"]
  postProcess := certificatePostProcess

/-- The registry in registration order (`DocumentProcessor.__init__`):
Indian ID documents first, then the general templates. -/
def registryTemplates : List Template :=
  [uanCardTemplate, aadhaarCardTemplate, panCardTemplate, voterIDTemplate,
    drivingLicenseTemplate, transcriptTemplate, idDocumentTemplate,
    certificateTemplate]

/-! ## Classification and validation (`BaseTemplate.classify`,
`BaseTemplate.validate`, `DocumentProcessor._classify_document`) -/

/-- `BaseTemplate.classify`: keyword-overlap ratio, capped at 1. The
keyword is searched as written in the lowercased text. -/
def classifyScore (t : Template) (text : String) : ℚ :=
  let textLower := pyLower text
  let hits := t.keywords.countP (fun kw => pyContains textLower kw)
  min ((hits : ℚ) / (max t.keywords.length 1 : ℚ)) 1

/-- Loop body of `_classify_document`: keep the first template whose score
strictly exceeds the best seen so far (initialized to `templates[0]` with
best score 0). -/
def selectBest (text : String) : Template → ℚ → List Template → Template
  | best, _, [] => best
  | best, bestScore, t :: rest =>
    let score := classifyScore t text
    if bestScore < score then selectBest text t score rest
    else selectBest text best bestScore rest

/-- Score-based selection over a template list (`_classify_document` after
the hint loop); `none` models the `IndexError` on an empty registry. -/
def scoringSelect (ts : List Template) (text : String) : Option Template :=
  match ts with
  | [] => none
  | t0 :: _ => some (selectBest text t0 0 ts)

/-- `DocumentProcessor._classify_document`: an optional type hint selects
the first template whose category value matches; otherwise (also when no
category matches the hint) the highest-scoring template wins. -/
def classifyDocument (ts : List Template) (text : String)
    (hint : Option DocumentTypeEnum) : Option Template :=
  match hint with
  | some h =>
    match ts.find? (fun t => t.category.value == h.value) with
    | some t => some t
    | none => scoringSelect ts text
  | none => scoringSelect ts text

/-- Test used by `validate` for `value is None or value == ""` (a missing
key reads as `None` through `dict.get`). -/
def isMissingVal (o : Option Json) : Bool :=
  match o with
  | none => true
  | some .null => true
  | some (.str s) => s == ""
  | some _ => false

/-- Test used by `validate` for `value is not None and value != ""`. -/
def isPresentVal (o : Option Json) : Bool :=
  match o with
  | none => false
  | some .null => false
  | some (.str s) => !(s == "")
  | some _ => true

/-- Model of `str(value).replace(",", "")`. -/
def removeCommas (s : String) : String :=
  ⟨s.data.filter (fun c => !decide (cp c = 44))⟩

/-- Validation message for a missing required field. -/
def reqErrMsg (f : FieldDefinition) : String :=
  "Required field \x27" ++ f.displayName ++ "\x27 is missing"

/-- Validation message for a non-numeric number field. -/
def numErrMsg (f : FieldDefinition) : String :=
  "Field \x27" ++ f.displayName ++ "\x27 should be a number"

/-- `BaseTemplate.validate`: per declared field, a required-but-missing
error and a number-parse error, in declaration order. -/
def validate : List FieldDefinition → PyDict → List String
  | [], _ => []
  | f :: rest, fields =>
    let value := pyGet fields f.name
    let e1 : List String :=
      if f.required && isMissingVal value then [reqErrMsg f] else []
    let e2 : List String :=
      if isPresentVal value && (f.fieldType == "number") then
        match pyFloatParse (removeCommas (pyStr (value.getD .null))) with
        | some _ => []
        | none => [numErrMsg f]
      else []
    e1 ++ e2 ++ validate rest fields

/-! ## OCR fallback pipeline (`OCRPipeline.process`)

The engines themselves are external; `process` is modelled as a function of
the two engine outcomes (`.error` = the engine raised), the availability of
a fallback engine, and the threshold. The second component records whether
the fallback engine was invoked. -/

def ocrPipelineProcess (primary : Except String OCRResult)
    (fallbackAvailable : Bool) (fallback : Except String OCRResult)
    (confidenceThreshold : ℚ) : Except String OCRResult × Bool :=
  match primary with
  | .ok r =>
    if confidenceThreshold ≤ r.confidence then (.ok r, false)
    else if fallbackAvailable then
      match fallback with
      | .ok fr =>
        if r.confidence < fr.confidence then (.ok fr, true) else (.ok r, true)
      | .error _ => (.ok r, true)
    else (.ok r, false)
  | .error e =>
    if fallbackAvailable then
      match fallback with
      | .ok fr => (.ok fr, true)
      | .error fe =>
        (.error ("Both OCR engines failed. Primary: " ++ e ++
          ", Fallback: " ++ fe), true)
    else (.error ("OCR failed: " ++ e), false)

/-! ## LLM response parsing (`LLMExtractor._parse_response`,
`OllamaExtractor.extract`) -/

/-- Model of `re.search` for an open brace through the last closing brace:
the substring from the first opening brace that is followed by a closing
brace, through the last closing brace of the string. -/
def jsonMatch (s : String) : Option String :=
  let l := s.data
  match l.reverse.findIdx? (fun c => decide (cp c = 125)) with
  | none => none
  | some rj =>
    let j := l.length - 1 - rj
    match l.findIdx? (fun c => decide (cp c = 123)) with
    | none => none
    | some i =>
      if i < j then some ⟨(l.drop i).take (j - i + 1)⟩ else none

/-- Model of Python `float(x)` over a JSON value (used for the confidence
entry); strings go through the float grammar, `None` and containers raise
`TypeError`, unparsable strings raise `ValueError`. -/
def pyFloatOfJson (v : Json) : Except String ℚ :=
  match v with
  | .float q => .ok q
  | .int n => .ok (n : ℚ)
  | .bool b => .ok (if b then 1 else 0)
  | .str s =>
    match pyFloatParse s with
    | some q => .ok q
    | none => .error ("ValueError: could not convert string to float: " ++ s)
  | _ => .error "TypeError: float() argument must be a string or a real number"

/-- One entry of the `fields` object: a nested object yields its
value/confidence/source text (confidence defaulting to 0.5), a bare value
yields confidence 0.5. -/
def parseFieldEntry (fieldName : String) (fd : Json) :
    Except String ExtractedField :=
  match fd with
  | .obj kvs =>
    match pyFloatOfJson (pyGetD kvs "confidence" (.float (1/2))) with
    | .error e => .error e
    | .ok q => .ok { name := fieldName,
                     value := pyGetD kvs "value" .null,
                     confidence := q,
                     sourceText := pyGetD kvs "source_text" (.str "") }
  | _ => .ok { name := fieldName, value := fd, confidence := 1/2 }

/-- The loop over `data.get("fields", {}).items()`. -/
def parseFields : List (String × Json) →
    Except String (List (String × ExtractedField))
  | [] => .ok []
  | (k, v) :: rest =>
    match parseFieldEntry k v with
    | .error e => .error e
    | .ok f =>
      match parseFields rest with
      | .error e => .error e
      | .ok fs => .ok ((k, f) :: fs)

/-- `LLMExtractor._parse_response`. The external `json.loads` is passed in
as `loads` (`.error` = `json.JSONDecodeError`, the only exception the
source catches). A `.error` result models an exception escaping
`_parse_response` (ill-typed `fields` entries: `AttributeError` from
`.items()` on a non-dict, `TypeError`/`ValueError` from `float`). -/
def parseResponse (loads : String → Except String Json) (response : String)
    (documentType : String) : Except String ExtractionResult :=
  match jsonMatch response with
  | none => .ok { documentType := .str documentType, fields := [],
                  rawResponse := response, success := false,
                  error := "No JSON found in response" }
  | some m =>
    match loads m with
    | .error e => .ok { documentType := .str documentType, fields := [],
                        rawResponse := response, success := false,
                        error := "JSON parse error: " ++ e }
    | .ok data =>
      match data with
      | .obj kvs =>
        match pyGetD kvs "fields" (.obj []) with
        | .obj fkvs =>
          match parseFields fkvs with
          | .error e => .error e
          | .ok fs => .ok { documentType :=
                              pyGetD kvs "document_type" (.str documentType),
                            fields := fs, rawResponse := response,
                            success := true }
        | _ => .error "AttributeError: object has no attribute items"
      | _ => .error "AttributeError: object has no attribute get"

/-- `OllamaExtractor.extract` around the chat call: the whole body
(including `_parse_response`) runs in one try/except, and the except
branch builds a fresh failure result whose `raw_response` is the empty
default. -/
def ollamaExtract (chatOutcome : Except String String)
    (loads : String → Except String Json) (documentType model : String) :
    ExtractionResult :=
  match chatOutcome with
  | .ok text =>
    match parseResponse loads text documentType with
    | .ok r => { r with modelUsed := "ollama/" ++ model }
    | .error e => { documentType := .str documentType, fields := [],
                    success := false, error := "Ollama error: " ++ e,
                    modelUsed := "ollama/" ++ model }
  | .error e => { documentType := .str documentType, fields := [],
                  success := false, error := "Ollama error: " ++ e,
                  modelUsed := "ollama/" ++ model }

/-! ## LLM fallback pipeline (`LLMPipeline.extract`) -/

/-- `LLMPipeline._average_confidence`. -/
def averageConfidence (r : ExtractionResult) : ℚ :=
  if r.fields.isEmpty then 0
  else (r.fields.map (fun p => p.2.confidence)).sum / r.fields.length

/-- `LLMPipeline.extract` as a function of the primary outcome (`.error`
= the primary extractor raised) and the fallback result (`none` = no
fallback engine could be configured). The second component records
whether the fallback extractor was invoked. -/
def llmPipelineExtract (primary : Except String ExtractionResult)
    (fallback : Option ExtractionResult) (useFallbackOnLowConfidence : Bool)
    (confidenceThreshold : ℚ) (documentType : String) :
    ExtractionResult × Bool :=
  match primary with
  | .ok r =>
    if r.success then
      let avg := averageConfidence r
      if confidenceThreshold ≤ avg then (r, false)
      else if useFallbackOnLowConfidence then
        match fallback with
        | some fr =>
          if fr.success && decide (avg < averageConfidence fr) then (fr, true)
          else (r, true)
        | none => (r, false)
      else (r, false)
    else
      match fallback with
      | some fr => (fr, true)
      | none => (r, false)
  | .error e =>
    match fallback with
    | some fr => (fr, true)
    | none => ({ documentType := .str documentType, fields := [],
                 success := false,
                 error := "All extractors failed: " ++ e }, false)

/-! ## Response construction (`DocumentProcessor._build_response`) -/

/-- `extracted_data.get(field_name) is not None`. -/
def nonNullValue (o : Option Json) : Bool :=
  match o with
  | some .null => false
  | some _ => true
  | none => false

/-- Overall confidence: mean of the confidences of fields whose
post-processed value is non-null (0 when none), discounted by the OCR
confidence when OCR ran with confidence below 0.7. -/
def computeOverall (fieldConfidences : List (String × ℚ))
    (extractedData : PyDict) (ocrResult : Option OCRResult) : ℚ :=
  let nonNull := fieldConfidences.filter
    (fun p => nonNullValue (pyGet extractedData p.1))
  let base : ℚ := if nonNull.isEmpty then 0
    else (nonNull.map (fun p => p.2)).sum / nonNull.length
  match ocrResult with
  | some o => if o.confidence < 7/10 then base * o.confidence else base
  | none => base

/-- The single LLM failure error. -/
def mkLLMError (msg : String) : ExtractionError :=
  { code := "LLM_ERROR", message := msg,
    suggestedAction := some "Try again or use different model" }

/-- One validation error per validator message. -/
def mkValidationError (msg : String) : ExtractionError :=
  { code := "VALIDATION_ERROR", message := msg,
    suggestedAction := some "Manual review required" }

/-- Two-decimal rendering used in the low-confidence message (Python
formats the float with :.2f; the rounding of a rational models it). -/
def format2f (q : ℚ) : String :=
  let m := round (q * 100)
  let n := m.natAbs
  (if m < 0 then "-" else "") ++ toString (n / 100) ++ "." ++
    (if n % 100 < 10 then "0" else "") ++ toString (n % 100)

/-- The single low-confidence error. -/
def mkLowConfidence (q : ℚ) : ExtractionError :=
  { code := "LOW_CONFIDENCE",
    message := "Overall confidence " ++ format2f q ++ " below threshold",
    suggestedAction := some "Manual verification recommended" }

/-- Terminal status and error list (`_build_response` status block):
LLM failure, else validation errors, else low confidence, else completed.
The third component is the `requires_review` flag. -/
def computeStatusErrors (llmResult : ExtractionResult)
    (validationErrors : List String) (overall confidenceThreshold : ℚ) :
    DocumentStatus × List ExtractionError × Bool :=
  if !llmResult.success then
    (.failed, [mkLLMError llmResult.error], false)
  else if !validationErrors.isEmpty then
    (.requiresReview, validationErrors.map mkValidationError, true)
  else if overall < confidenceThreshold then
    (.requiresReview, [mkLowConfidence overall], true)
  else (.completed, [], false)

/-- `doc_type_map.get(template.category, UNKNOWN)`. -/
def mapCategory (c : DocumentCategory) : DocumentTypeEnum :=
  match c with
  | .transcript => .transcript
  | .idDocument => .idDocument
  | .certificate => .certificate
  | _ => .unknown

/-- `DocumentProcessor._build_response`. A `.error` result models an
exception escaping to the `process_file` handler: a raising
`post_process`, or the pydantic range validation of `overall_confidence`
rejecting the response model. -/
def buildResponse (documentId filename : String) (t : Template)
    (llmResult : ExtractionResult) (ocrResult : Option OCRResult)
    (confidenceThreshold : ℚ) : Except String ExtractionResponse :=
  let extractedData0 : PyDict := llmResult.fields.map (fun p => (p.1, p.2.value))
  let fieldConfidences : List (String × ℚ) :=
    llmResult.fields.map (fun p => (p.1, p.2.confidence))
  match t.postProcess extractedData0 with
  | .error e => .error e
  | .ok extractedData =>
    let validationErrors := validate t.fieldDefs extractedData
    let overall := computeOverall fieldConfidences extractedData ocrResult
    let ser := computeStatusErrors llmResult validationErrors overall
      confidenceThreshold
    if 0 ≤ overall ∧ overall ≤ 1 then
      .ok { documentId := documentId, status := ser.1,
            documentType := mapCategory t.category, filename := filename,
            extractedData := extractedData,
            fieldConfidences := fieldConfidences,
            overallConfidence := overall, errors := ser.2.1,
            requiresReview := ser.2.2, modelUsed := llmResult.modelUsed }
    else .error "pydantic ValidationError: overall_confidence out of range"

/-! ## Helper lemmas for the claim theorems -/

theorem isEmpty_false_append (a b : String) (h : a ≠ "") :
    (a ++ b).isEmpty = false := by
  rw [Bool.eq_false_iff]
  intro hc
  rw [String.isEmpty_iff] at hc
  have hd := congrArg String.data hc
  rw [String.data_append] at hd
  simp at hd
  apply h
  cases a with
  | mk d =>
    simp at hd
    rw [hd.1]

theorem classifyScore_nonneg (t : Template) (text : String) :
    0 ≤ classifyScore t text := by
  unfold classifyScore
  apply le_min
  · positivity
  · norm_num

/-! ## C4: OCR fallback policy -/

/-- C4: the OCR fallback engine is invoked only when the primary result is
below the threshold or the primary raises; when both engines return
results, the strictly higher-confidence result wins with the primary
preferred on ties; and when both raise, the single raised failure reports
both underlying causes. -/
theorem ocr_fallback_policy (primary : Except String OCRResult)
    (avail : Bool) (fallback : Except String OCRResult) (thr : ℚ) :
    ((ocrPipelineProcess primary avail fallback thr).2 = true →
      (∃ r, primary = .ok r ∧ r.confidence < thr) ∨ (∃ e, primary = .error e)) ∧
    (∀ r fr, primary = .ok r → fallback = .ok fr →
      (ocrPipelineProcess primary avail fallback thr).2 = true →
      (ocrPipelineProcess primary avail fallback thr).1 =
        .ok (if r.confidence < fr.confidence then fr else r)) ∧
    (∀ e fe, primary = .error e → fallback = .error fe → avail = true →
      (ocrPipelineProcess primary avail fallback thr).1 =
        .error ("Both OCR engines failed. Primary: " ++ e ++
          ", Fallback: " ++ fe)) := by
  refine ⟨?_, ?_, ?_⟩
  · intro h
    cases primary with
    | ok r =>
      left
      refine ⟨r, rfl, ?_⟩
      by_cases hc : thr ≤ r.confidence
      · simp [ocrPipelineProcess, hc] at h
      · exact lt_of_not_le hc
    | error e => exact Or.inr ⟨e, rfl⟩
  · intro r fr hp hf hinv
    subst hp
    subst hf
    by_cases hc : thr ≤ r.confidence
    · simp [ocrPipelineProcess, hc] at hinv
    · cases avail with
      | false => simp [ocrPipelineProcess, hc] at hinv
      | true =>
        by_cases hcmp : r.confidence < fr.confidence
        · simp [ocrPipelineProcess, hc, hcmp]
        · simp [ocrPipelineProcess, hc, hcmp]
  · intro e fe hp hf ha
    subst hp
    subst hf
    subst ha
    simp [ocrPipelineProcess]

def ocrPrimW : OCRResult :=
  { fullText := "blurry", words := [], confidence := 3/10,
    engineUsed := "easyocr" }

def ocrFallW : OCRResult :=
  { fullText := "clear", words := [], confidence := 9/10,
    engineUsed := "tesseract" }

theorem ocr_fallback_policy_witness :
    (ocrPipelineProcess (.ok ocrPrimW) true (.ok ocrFallW) (1/2)).2 = true ∧
    (ocrPipelineProcess (.ok ocrPrimW) true (.ok ocrFallW) (1/2)).1 =
      .ok (if ocrPrimW.confidence < ocrFallW.confidence then ocrFallW
        else ocrPrimW) := by
  have h2 : (ocrPipelineProcess (.ok ocrPrimW) true (.ok ocrFallW)
      (1/2)).2 = true := by with_unfolding_all decide
  exact ⟨h2, (ocr_fallback_policy (.ok ocrPrimW) true (.ok ocrFallW)
    (1/2)).2.1 ocrPrimW ocrFallW rfl rfl h2⟩

/-! ## C3: LLM fallback policy -/

/-- C3: the LLM fallback extractor is invoked only when the primary is a
low-confidence success, an unsuccessful result, or an exception; when both
results are successful the returned result is never worse than the primary
by mean field confidence, and the primary is returned on ties. -/
theorem llm_fallback_policy (primary : Except String ExtractionResult)
    (fallback : Option ExtractionResult) (useFb : Bool) (thr : ℚ)
    (dt : String) :
    ((llmPipelineExtract primary fallback useFb thr dt).2 = true →
      (∃ r, primary = .ok r ∧ r.success = true ∧ averageConfidence r < thr) ∨
      (∃ r, primary = .ok r ∧ r.success = false) ∨
      (∃ e, primary = .error e)) ∧
    (∀ r fr, primary = .ok r → fallback = some fr → r.success = true →
      fr.success = true →
      averageConfidence r ≤
        averageConfidence (llmPipelineExtract primary fallback useFb thr dt).1 ∧
      ((llmPipelineExtract primary fallback useFb thr dt).1 = r ∨
        (llmPipelineExtract primary fallback useFb thr dt).1 = fr) ∧
      (averageConfidence fr ≤ averageConfidence r →
        (llmPipelineExtract primary fallback useFb thr dt).1 = r)) := by
  constructor
  · intro h
    cases primary with
    | ok r =>
      by_cases hs : r.success = true
      · left
        refine ⟨r, rfl, hs, ?_⟩
        by_cases hc : thr ≤ averageConfidence r
        · simp [llmPipelineExtract, hs, hc] at h
        · exact lt_of_not_le hc
      · right; left
        exact ⟨r, rfl, by simpa using hs⟩
    | error e => exact Or.inr (Or.inr ⟨e, rfl⟩)
  · intro r fr hp hf hs hfs
    subst hp
    subst hf
    by_cases hc : thr ≤ averageConfidence r
    · have hres : (llmPipelineExtract (.ok r) (some fr) useFb thr dt).1 = r := by
        simp [llmPipelineExtract, hs, hc]
      rw [hres]
      exact ⟨le_refl _, Or.inl rfl, fun _ => rfl⟩
    · cases useFb with
      | false =>
        have hres : (llmPipelineExtract (.ok r) (some fr) false thr dt).1 = r := by
          simp [llmPipelineExtract, hs, hc]
        rw [hres]
        exact ⟨le_refl _, Or.inl rfl, fun _ => rfl⟩
      | true =>
        by_cases hcmp : averageConfidence r < averageConfidence fr
        · have hres : (llmPipelineExtract (.ok r) (some fr) true thr dt).1 = fr := by
            simp [llmPipelineExtract, hs, hc, hfs, hcmp]
          rw [hres]
          exact ⟨le_of_lt hcmp, Or.inr rfl,
            fun hle => absurd hcmp (not_lt.mpr hle)⟩
        · have hres : (llmPipelineExtract (.ok r) (some fr) true thr dt).1 = r := by
            simp [llmPipelineExtract, hs, hc, hfs, hcmp]
          rw [hres]
          exact ⟨le_refl _, Or.inl rfl, fun _ => rfl⟩

def llmPrimW : ExtractionResult :=
  { documentType := .str "id_document",
    fields := [("full_name",
      { name := "full_name", value := .str "A B", confidence := 1/2 })],
    success := true }

def llmFallW : ExtractionResult :=
  { documentType := .str "id_document",
    fields := [("full_name",
      { name := "full_name", value := .str "A B", confidence := 3/4 })],
    success := true }

theorem llm_fallback_policy_witness :
    (llmPipelineExtract (.ok llmPrimW) (some llmFallW) true (7/10) "t").2 =
      true ∧
    averageConfidence llmPrimW ≤ averageConfidence
      (llmPipelineExtract (.ok llmPrimW) (some llmFallW) true (7/10) "t").1 := by
  refine ⟨by with_unfolding_all decide, ?_⟩
  exact ((llm_fallback_policy (.ok llmPrimW) (some llmFallW) true (7/10)
    "t").2 llmPrimW llmFallW rfl rfl rfl rfl).1

/-! ## C10: all-zero classification scores select the first template -/

theorem selectBest_zero (text : String) (l : List Template)
    (h : ∀ t ∈ l, classifyScore t text = 0) (best : Template) :
    selectBest text best 0 l = best := by
  induction l with
  | nil => rfl
  | cons t rest ih =>
    have ht : classifyScore t text = 0 := h t (by simp)
    simp only [selectBest, ht, lt_irrefl, if_false]
    exact ih (fun t2 h2 => h t2 (List.mem_cons_of_mem _ h2))

/-- C10: when every registered template scores zero on the text and no
hint is given, classification returns the first registered template, the
UAN card template, so the document is processed under that schema rather
than rejected. -/
theorem unrecognized_text_selects_first (text : String)
    (h : ∀ t ∈ registryTemplates, classifyScore t text = 0) :
    classifyDocument registryTemplates text none = some uanCardTemplate := by
  show scoringSelect registryTemplates text = some uanCardTemplate
  show some (selectBest text uanCardTemplate 0 registryTemplates) = _
  rw [selectBest_zero text registryTemplates h uanCardTemplate]

theorem zero_scores_on_empty_text :
    ∀ t ∈ registryTemplates, classifyScore t "" = 0 := by
  intro t ht
  fin_cases ht <;> with_unfolding_all decide

theorem unrecognized_text_selects_first_witness :
    (∀ t ∈ registryTemplates, classifyScore t "" = 0) ∧
    classifyDocument registryTemplates "" none = some uanCardTemplate :=
  ⟨zero_scores_on_empty_text,
    unrecognized_text_selects_first "" zero_scores_on_empty_text⟩

/-! ## C1 and C2: response construction -/

theorem buildResponse_ok (did fn : String) (t : Template)
    (llm : ExtractionResult) (ocr : Option OCRResult) (thr : ℚ)
    (resp : ExtractionResponse)
    (h : buildResponse did fn t llm ocr thr = .ok resp) :
    ∃ ed, t.postProcess (llm.fields.map (fun p => (p.1, p.2.value))) = .ok ed ∧
      (0 ≤ computeOverall (llm.fields.map fun p => (p.1, p.2.confidence)) ed ocr ∧
        computeOverall (llm.fields.map fun p => (p.1, p.2.confidence)) ed ocr ≤ 1) ∧
      resp = { documentId := did,
               status := (computeStatusErrors llm (validate t.fieldDefs ed)
                 (computeOverall (llm.fields.map fun p => (p.1, p.2.confidence))
                   ed ocr) thr).1,
               documentType := mapCategory t.category,
               filename := fn,
               extractedData := ed,
               fieldConfidences := llm.fields.map fun p => (p.1, p.2.confidence),
               overallConfidence := computeOverall
                 (llm.fields.map fun p => (p.1, p.2.confidence)) ed ocr,
               errors := (computeStatusErrors llm (validate t.fieldDefs ed)
                 (computeOverall (llm.fields.map fun p => (p.1, p.2.confidence))
                   ed ocr) thr).2.1,
               requiresReview := (computeStatusErrors llm
                 (validate t.fieldDefs ed)
                 (computeOverall (llm.fields.map fun p => (p.1, p.2.confidence))
                   ed ocr) thr).2.2,
               modelUsed := llm.modelUsed } := by
  unfold buildResponse at h
  cases hp : t.postProcess (llm.fields.map (fun p => (p.1, p.2.value))) with
  | error e => simp [hp] at h
  | ok ed =>
    refine ⟨ed, rfl, ?_, ?_⟩
    · simp only [hp] at h
      split at h
      · assumption
      · exact absurd h (by simp)
    · simp only [hp] at h
      split at h
      · injection h with h
        exact h.symm
      · exact absurd h (by simp)

/-- C1: terminal status priority of `_build_response`: LLM failure gives
`failed` with a single `LLM_ERROR`; else validation errors give
`requires_review` with one `VALIDATION_ERROR` per message; else an overall
confidence below the threshold gives `requires_review` with one
`LOW_CONFIDENCE` error; else `completed` with no errors. -/
theorem status_priority (did fn : String) (t : Template)
    (llm : ExtractionResult) (ocr : Option OCRResult) (thr : ℚ)
    (resp : ExtractionResponse)
    (h : buildResponse did fn t llm ocr thr = .ok resp) :
    (llm.success = false →
      resp.status = .failed ∧ resp.errors = [mkLLMError llm.error]) ∧
    (llm.success = true → validate t.fieldDefs resp.extractedData ≠ [] →
      resp.status = .requiresReview ∧
      resp.errors =
        (validate t.fieldDefs resp.extractedData).map mkValidationError) ∧
    (llm.success = true → validate t.fieldDefs resp.extractedData = [] →
      resp.overallConfidence < thr →
      resp.status = .requiresReview ∧
      resp.errors = [mkLowConfidence resp.overallConfidence]) ∧
    (llm.success = true → validate t.fieldDefs resp.extractedData = [] →
      thr ≤ resp.overallConfidence →
      resp.status = .completed ∧ resp.errors = []) := by
  rcases buildResponse_ok did fn t llm ocr thr resp h with ⟨ed, hp, hb, hr⟩
  subst hr
  refine ⟨?_, ?_, ?_, ?_⟩
  · intro hsucc
    simp [computeStatusErrors, hsucc]
  · intro hsucc hve
    have hve2 : validate t.fieldDefs ed ≠ [] := hve
    cases hveq : validate t.fieldDefs ed with
    | nil => exact absurd hveq hve2
    | cons a as => simp [computeStatusErrors, hsucc, hveq]
  · intro hsucc hve hlow
    have hve2 : validate t.fieldDefs ed = [] := hve
    have hlow2 : computeOverall
        (llm.fields.map fun p => (p.1, p.2.confidence)) ed ocr < thr := hlow
    simp [computeStatusErrors, hsucc, hve2, hlow2]
  · intro hsucc hve hge
    have hve2 : validate t.fieldDefs ed = [] := hve
    have hge2 : thr ≤ computeOverall
        (llm.fields.map fun p => (p.1, p.2.confidence)) ed ocr := hge
    simp [computeStatusErrors, hsucc, hve2, not_lt.mpr hge2]

def llmFailW : ExtractionResult :=
  { documentType := .str "id_document", fields := [], success := false,
    error := "boom", modelUsed := "ollama/llama3.2" }

def respC1w : ExtractionResponse :=
  { documentId := "d", status := .failed, documentType := .idDocument,
    filename := "f", extractedData := [], fieldConfidences := [],
    overallConfidence := 0, errors := [mkLLMError "boom"],
    requiresReview := false, modelUsed := "ollama/llama3.2" }

theorem status_priority_witness :
    buildResponse "d" "f" voterIDTemplate llmFailW none (4/5) = .ok respC1w ∧
    (respC1w.status = .failed ∧ respC1w.errors = [mkLLMError llmFailW.error]) := by
  have hb : buildResponse "d" "f" voterIDTemplate llmFailW none (4/5) =
      .ok respC1w := by with_unfolding_all rfl
  exact ⟨hb, (status_priority "d" "f" voterIDTemplate llmFailW none (4/5)
    respC1w hb).1 rfl⟩

/-- Overall confidence restated from the wording of the specification (for
comparison with `computeOverall` as implemented): the arithmetic mean of
the confidences of exactly those extracted fields whose post-processed
value is non-null, zero when there is none, multiplied by the OCR
confidence when OCR was used with confidence below 0.7. -/
def specOverallConfidence (fields : List (String × ExtractedField))
    (ed : PyDict) (ocr : Option OCRResult) : ℚ :=
  let nn := fields.filter fun p => nonNullValue (pyGet ed p.1)
  let base : ℚ := if nn.isEmpty then 0
    else (nn.map fun p => p.2.confidence).sum / nn.length
  match ocr with
  | some o => if o.confidence < 7/10 then base * o.confidence else base
  | none => base

theorem computeOverall_fields (fields : List (String × ExtractedField))
    (ed : PyDict) (ocr : Option OCRResult) :
    computeOverall (fields.map fun p => (p.1, p.2.confidence)) ed ocr =
      specOverallConfidence fields ed ocr := by
  have hfilter : (fields.map fun p => (p.1, p.2.confidence)).filter
      (fun p => nonNullValue (pyGet ed p.1)) =
      (fields.filter fun p => nonNullValue (pyGet ed p.1)).map
        (fun p => (p.1, p.2.confidence)) := by
    rw [List.filter_map]
    rfl
  have hisE : ((fields.filter fun p => nonNullValue (pyGet ed p.1)).map
      (fun p => (p.1, p.2.confidence))).isEmpty =
      (fields.filter fun p => nonNullValue (pyGet ed p.1)).isEmpty := by
    cases fields.filter fun p => nonNullValue (pyGet ed p.1) <;> rfl
  simp only [computeOverall, specOverallConfidence, hfilter, hisE,
    List.map_map, List.length_map]
  rfl

/-- C2: for every successfully built response, the overall confidence lies
in the unit interval (the pydantic constraint), and equals the arithmetic
mean of the confidences of exactly those LLM fields whose post-processed
value is non-null (0 when none), multiplied by the OCR confidence when OCR
ran with confidence below 0.7. -/
theorem overall_confidence_mean (did fn : String) (t : Template)
    (llm : ExtractionResult) (ocr : Option OCRResult) (thr : ℚ)
    (resp : ExtractionResponse)
    (h : buildResponse did fn t llm ocr thr = .ok resp) :
    (0 ≤ resp.overallConfidence ∧ resp.overallConfidence ≤ 1) ∧
    resp.overallConfidence =
      specOverallConfidence llm.fields resp.extractedData ocr := by
  rcases buildResponse_ok did fn t llm ocr thr resp h with ⟨ed, hp, hb, hr⟩
  subst hr
  exact ⟨hb, computeOverall_fields llm.fields ed ocr⟩

def llmC2w : ExtractionResult :=
  { documentType := .str "id_document",
    fields := [
      ("elector_name",
        { name := "elector_name", value := .str "A B", confidence := 3/4 }),
      ("epic_number",
        { name := "epic_number", value := .str "XYZ1234567",
          confidence := 1/2 }),
      ("age", { name := "age", value := .null, confidence := 9/10 })],
    success := true }

def ocrLowW : OCRResult :=
  { fullText := "scan", words := [], confidence := 1/2,
    engineUsed := "easyocr" }

def respC2w : ExtractionResponse :=
  { documentId := "d2", status := .requiresReview,
    documentType := .idDocument, filename := "g",
    extractedData := [("elector_name", .str "A B"),
      ("epic_number", .str "XYZ1234567"), ("age", .null)],
    fieldConfidences := [("elector_name", 3/4), ("epic_number", 1/2),
      ("age", 9/10)],
    overallConfidence := 5/16, errors := [mkLowConfidence (5/16)],
    requiresReview := true, modelUsed := "" }

theorem overall_confidence_mean_witness :
    buildResponse "d2" "g" voterIDTemplate llmC2w (some ocrLowW) (4/5) =
      .ok respC2w ∧
    (0 ≤ respC2w.overallConfidence ∧ respC2w.overallConfidence ≤ 1) := by
  have hb : buildResponse "d2" "g" voterIDTemplate llmC2w (some ocrLowW)
      (4/5) = .ok respC2w := by with_unfolding_all rfl
  exact ⟨hb, (overall_confidence_mean "d2" "g" voterIDTemplate llmC2w
    (some ocrLowW) (4/5) respC2w hb).1⟩

/-! ## C5: malformed LLM responses -/

/-- C5 (amended): when no JSON object is found, or the located object
fails to decode, `_parse_response` returns a failed result with the raw
response preserved verbatim and a non-empty error; when the field entries
are ill-typed the raised exception is caught at the extractor boundary,
yielding a failed result with a non-empty error and no escaping exception,
but with an empty `raw_response` instead of the original text. -/
theorem llm_parse_robustness (loads : String → Except String Json)
    (response dt model : String) :
    (jsonMatch response = none →
      (parseResponse loads response dt).map
        (fun r => (r.success, r.rawResponse, r.error.isEmpty)) =
        .ok (false, response, false)) ∧
    (∀ m e, jsonMatch response = some m → loads m = .error e →
      (parseResponse loads response dt).map
        (fun r => (r.success, r.rawResponse, r.error.isEmpty)) =
        .ok (false, response, false)) ∧
    (∀ e, parseResponse loads response dt = .error e →
      (ollamaExtract (.ok response) loads dt model).success = false ∧
      (ollamaExtract (.ok response) loads dt model).error.isEmpty = false ∧
      (ollamaExtract (.ok response) loads dt model).rawResponse = "") := by
  refine ⟨?_, ?_, ?_⟩
  · intro hm
    simp [parseResponse, hm, Except.map]
    with_unfolding_all decide
  · intro m e hm he
    have hne := isEmpty_false_append "JSON parse error: " e (by decide)
    simp [parseResponse, hm, he, Except.map, hne]
  · intro e hpe
    have hne := isEmpty_false_append "Ollama error: " e (by decide)
    simp [ollamaExtract, hpe, hne]

def loadsErrW : String → Except String Json := fun _ => .error "boom"

theorem llm_parse_robustness_witness :
    jsonMatch "no json here" = none ∧
    (parseResponse loadsErrW "no json here" "t").map
      (fun r => (r.success, r.rawResponse, r.error.isEmpty)) =
      .ok (false, "no json here", false) := by
  have hm : jsonMatch "no json here" = none := by with_unfolding_all decide
  exact ⟨hm, (llm_parse_robustness loadsErrW "no json here" "t" "m").1 hm⟩

def respC5 : String := "\x7b\x22fields\x22: [1]\x7d"

def loadsC5 : String → Except String Json := fun s =>
  if s == respC5 then .ok (.obj [("fields", .arr [.int 1])])
  else .error "unmodeled input"

/-- C5 counterexample: for a response whose located JSON object decodes to
an object with an ill-typed (non-dict) `fields` entry, the extractor
returns a failed result whose `raw_response` is empty, not the original
response text, so the raw response is not preserved verbatim as the claim
states. -/
theorem llm_parse_raw_loss_counterexample :
    (ollamaExtract (.ok respC5) loadsC5 "id_document" "llama3.2").success =
      false ∧
    (ollamaExtract (.ok respC5) loadsC5 "id_document" "llama3.2").rawResponse =
      "" ∧
    respC5 ≠ "" ∧
    (ollamaExtract (.ok respC5) loadsC5 "id_document"
      "llama3.2").rawResponse ≠ respC5 := by
  refine ⟨?_, ?_, ?_, ?_⟩ <;> with_unfolding_all decide

/-! ## C6: the field-confidence invariant -/

theorem pyGet_map_value_isSome (fields : List (String × ExtractedField))
    (p : String × ℚ)
    (hp : p ∈ fields.map (fun q => (q.1, q.2.confidence))) :
    (pyGet (fields.map fun q => (q.1, q.2.value)) p.1).isSome = true := by
  induction fields with
  | nil => simp at hp
  | cons q rest ih =>
    simp only [List.map_cons, List.mem_cons] at hp
    by_cases hk : q.1 == p.1
    · simp [pyGet, hk]
    · rcases hp with hp | hp
      · rw [hp] at hk
        simp at hk
      · simp only [List.map_cons, pyGet, hk, Bool.false_eq_true, if_false]
        exact ih hp

theorem bind_ok_destruct {x : Except String PyDict}
    {f : PyDict → Except String PyDict} {d2 : PyDict}
    (h : x.bind f = .ok d2) : ∃ dm, x = .ok dm ∧ f dm = .ok d2 := by
  cases x with
  | error e => simp [Except.bind] at h
  | ok dm => exact ⟨dm, rfl, by simpa [Except.bind] using h⟩

theorem combineNames_keys (d : PyDict) (k2 : String)
    (hs : (pyGet d k2).isSome = true) :
    (pyGet (combineNames d) k2).isSome = true := by
  unfold combineNames
  by_cases h1 : truthyOpt (pyGet d "full_name") = true
  · simp [h1, hs]
  · simp only [h1, Bool.false_eq_true, if_neg, if_false]
    by_cases h2 : (pyTruthy (pyGetD d "first_name" (.str "")) ||
        pyTruthy (pyGetD d "last_name" (.str ""))) = true
    · simp only [h2, if_pos, if_true]
      exact pyGet_isSome_pySet d _ k2 _ hs
    · simp only [h2, Bool.false_eq_true, if_neg, if_false]
      exact hs

theorem registry_postProcess_keys (t : Template)
    (ht : t ∈ registryTemplates) (d d2 : PyDict)
    (h : t.postProcess d = .ok d2) (k : String)
    (hk : (pyGet d k).isSome = true) : (pyGet d2 k).isSome = true := by
  simp only [registryTemplates, List.mem_cons, List.not_mem_nil,
    or_false] at ht
  rcases ht with rfl | rfl | rfl | rfl | rfl | rfl | rfl | rfl
  · rcases bind_ok_destruct h with ⟨dm, h1, h2⟩
    exact stepOnKey_keys h2 k (stepOnKey_keys h1 k hk)
  · rcases bind_ok_destruct h with ⟨dm, h1, h2⟩
    exact stepOnKey_keys h2 k (stepOnKey_keys h1 k hk)
  · have h2 : stepOnKey "pan_number" panNumberStep d = .ok d2 := h
    exact stepOnKey_keys h2 k hk
  · have h2 : Except.ok d = .ok d2 := h
    injection h2 with h2
    rw [← h2]
    exact hk
  · have h2 : Except.ok d = .ok d2 := h
    injection h2 with h2
    rw [← h2]
    exact hk
  · rcases bind_ok_destruct h with ⟨dm, h1, h2⟩
    exact stepOnKey_keys h2 k (stepOnKey_keys h1 k hk)
  · rcases bind_ok_destruct (h : (((stepOnKey "full_name" stripTitleStep
        (combineNames d)).bind (stepOnKey "first_name" stripTitleStep)).bind
        (stepOnKey "last_name" stripTitleStep)).bind
        (stepOnKey "gender" genderStepPlain) = .ok d2) with ⟨d3, h3, h4⟩
    rcases bind_ok_destruct h3 with ⟨d4, h5, h6⟩
    rcases bind_ok_destruct h5 with ⟨d5, h7, h8⟩
    exact stepOnKey_keys h4 k (stepOnKey_keys h6 k (stepOnKey_keys h8 k
      (stepOnKey_keys h7 k (combineNames_keys d k hk))))
  · rcases bind_ok_destruct h with ⟨dm, h1, h2⟩
    exact stepOnKey_keys h2 k (stepOnKey_keys h1 k hk)

/-- C6 (amended): for every response built with a registry template, the
field-confidence map is exactly the LLM field-confidence projection, every
key of the field-confidence map has an entry in the (post-processed)
extracted data (post-processing only adds or rewrites keys), and the
confidence values all lie in the unit interval provided the parsed LLM
confidences do. The original claim fails in both unconditional directions:
post-processing can add keys to `extracted_data` that have no confidence
entry, and the parser does not clamp confidences to the unit interval. -/
theorem field_confidence_invariant (t : Template)
    (ht : t ∈ registryTemplates) (did fn : String) (llm : ExtractionResult)
    (ocr : Option OCRResult) (thr : ℚ) (resp : ExtractionResponse)
    (h : buildResponse did fn t llm ocr thr = .ok resp) :
    resp.fieldConfidences = llm.fields.map (fun p => (p.1, p.2.confidence)) ∧
    resp.fieldConfidences.all
      (fun p => (pyGet resp.extractedData p.1).isSome) = true ∧
    ((∀ p ∈ llm.fields, 0 ≤ p.2.confidence ∧ p.2.confidence ≤ 1) →
      resp.fieldConfidences.all
        (fun p => decide (0 ≤ p.2) && decide (p.2 ≤ 1)) = true) := by
  rcases buildResponse_ok did fn t llm ocr thr resp h with ⟨ed, hp, hb, hr⟩
  subst hr
  refine ⟨rfl, ?_, ?_⟩
  · rw [List.all_eq_true]
    intro p hpmem
    have hkey : (pyGet (llm.fields.map fun q => (q.1, q.2.value))
        p.1).isSome = true := pyGet_map_value_isSome llm.fields p hpmem
    exact registry_postProcess_keys t ht _ _ hp p.1 hkey
  · intro hconf
    rw [List.all_eq_true]
    intro p hpmem
    rcases List.mem_map.mp hpmem with ⟨q, hq, rfl⟩
    have hcq := hconf q hq
    simp [hcq.1, hcq.2]

def llmC6 : ExtractionResult :=
  { documentType := .str "id_document",
    fields := [
      ("first_name",
        { name := "first_name", value := .str "john", confidence := 1/2 }),
      ("last_name",
        { name := "last_name", value := .str "doe", confidence := 1/2 }),
      ("notes", { name := "notes", value := .str "a", confidence := 3/2 })],
    success := true }

def respC6 : ExtractionResponse :=
  { documentId := "doc", status := .requiresReview,
    documentType := .idDocument, filename := "f.png",
    extractedData := [("first_name", .str "John"), ("last_name", .str "Doe"),
      ("notes", .str "a"), ("full_name", .str "John Doe")],
    fieldConfidences := [("first_name", 1/2), ("last_name", 1/2),
      ("notes", 3/2)],
    overallConfidence := 5/6,
    errors := [
      mkValidationError (reqErrMsg ( fdef "date_of_birth" "Date of Birth"
        "date" true)),
      mkValidationError (reqErrMsg ( fdef "document_number" "Document Number"
        "string" true))],
    requiresReview := true, modelUsed := "" }

/-- C6 counterexample: a built response whose `extracted_data` contains the
key full_name (added by post-processing) with no corresponding entry in
`field_confidences`, and whose `field_confidences` contains the value 3/2,
outside the unit interval; both conjuncts of the claim fail. -/
theorem field_confidence_counterexample :
    buildResponse "doc" "f.png" idDocumentTemplate llmC6 none (4/5) =
      .ok respC6 ∧
    (pyGet respC6.extractedData "full_name").isSome = true ∧
    respC6.fieldConfidences.find? (fun p => p.1 == "full_name") = none ∧
    ("notes", (3/2 : ℚ)) ∈ respC6.fieldConfidences ∧ ¬((3/2 : ℚ) ≤ 1) := by
  refine ⟨by with_unfolding_all rfl, rfl, by with_unfolding_all decide,
    ?_, by with_unfolding_all decide⟩
  exact List.mem_cons_of_mem _ (List.mem_cons_of_mem _
    (List.mem_cons_self _ _))

def respC6w : ExtractionResponse :=
  { documentId := "w6", status := .requiresReview,
    documentType := .idDocument, filename := "f",
    extractedData := [("full_name", .str "A B")],
    fieldConfidences := [("full_name", 1/2)],
    overallConfidence := 1/2,
    errors := [
      mkValidationError (reqErrMsg ( fdef "elector_name" "Elector\x27s Name"
        "string" true)),
      mkValidationError (reqErrMsg ( fdef "epic_number" "EPIC Number"
        "string" true))],
    requiresReview := true, modelUsed := "" }

theorem field_confidence_invariant_witness :
    buildResponse "w6" "f" voterIDTemplate llmPrimW none (4/5) =
      .ok respC6w ∧
    respC6w.fieldConfidences.all
      (fun p => decide (0 ≤ p.2) && decide (p.2 ≤ 1)) = true := by
  have hb : buildResponse "w6" "f" voterIDTemplate llmPrimW none (4/5) =
      .ok respC6w := by with_unfolding_all rfl
  refine ⟨hb, (field_confidence_invariant voterIDTemplate
    (by simp [registryTemplates]) "w6" "f" llmPrimW none (4/5) respC6w
    hb).2.2 ?_⟩
  intro p hp
  simp only [llmPrimW, List.mem_cons, List.not_mem_nil, or_false] at hp
  subst hp
  constructor <;> norm_num

/-! ## C9: documents whose LLM extraction returns only null fields -/

theorem allNull_get (d : PyDict) (h : ∀ kv ∈ d, kv.2 = Json.null)
    (k : String) : pyGet d k = none ∨ pyGet d k = some Json.null := by
  cases hg : pyGet d k with
  | none => exact Or.inl rfl
  | some v =>
    rcases pyGet_mem d k v hg with ⟨k0, hk0⟩
    have hv : v = Json.null := h (k0, v) hk0
    exact Or.inr (by rw [hv])

theorem combineNames_all_null (d : PyDict)
    (h : ∀ kv ∈ d, kv.2 = Json.null) : combineNames d = d := by
  unfold combineNames
  have h1 : truthyOpt (pyGet d "full_name") = false := by
    rcases allNull_get d h "full_name" with hg | hg <;>
      simp [hg, truthyOpt, pyTruthy]
  have h2 : pyTruthy (pyGetD d "first_name" (.str "")) = false := by
    unfold pyGetD
    rcases allNull_get d h "first_name" with hg | hg <;>
      simp [hg, pyTruthy, String.isEmpty]
  have h3 : pyTruthy (pyGetD d "last_name" (.str "")) = false := by
    unfold pyGetD
    rcases allNull_get d h "last_name" with hg | hg <;>
      simp [hg, pyTruthy, String.isEmpty]
  simp [h1, h2, h3]

theorem registry_postProcess_all_null (t : Template)
    (ht : t ∈ registryTemplates) (d : PyDict)
    (h : ∀ kv ∈ d, kv.2 = Json.null) : t.postProcess d = .ok d := by
  simp only [registryTemplates, List.mem_cons, List.not_mem_nil,
    or_false] at ht
  rcases ht with rfl | rfl | rfl | rfl | rfl | rfl | rfl | rfl
  · show (stepOnKey "member_name" stripTitleStep d).bind
      (stepOnKey "uan_number" uanNumberStep) = .ok d
    simp [Except.bind, stepOnKey_all_null h]
  · show (stepOnKey "aadhaar_number" aadhaarNumberStep d).bind
      (stepOnKey "gender" genderStepHindi) = .ok d
    simp [Except.bind, stepOnKey_all_null h]
  · show stepOnKey "pan_number" panNumberStep d = .ok d
    exact stepOnKey_all_null h
  · rfl
  · rfl
  · show (stepOnKey "gpa" gpaStep d).bind
      (stepOnKey "student_name" stripTitleStep) = .ok d
    simp [Except.bind, stepOnKey_all_null h]
  · show (((stepOnKey "full_name" stripTitleStep (combineNames d)).bind
      (stepOnKey "first_name" stripTitleStep)).bind
      (stepOnKey "last_name" stripTitleStep)).bind
      (stepOnKey "gender" genderStepPlain) = .ok d
    rw [combineNames_all_null d h]
    simp [Except.bind, stepOnKey_all_null h]
  · show (stepOnKey "recipient_name" stripTitleStep d).bind
      (stepOnKey "certificate_title" certTitleStep) = .ok d
    simp [Except.bind, stepOnKey_all_null h]

theorem computeOverall_all_null (fcs : List (String × ℚ)) (ed : PyDict)
    (ocr : Option OCRResult)
    (h : ∀ p ∈ fcs, nonNullValue (pyGet ed p.1) = false) :
    computeOverall fcs ed ocr = 0 := by
  unfold computeOverall
  have hf : fcs.filter (fun p => nonNullValue (pyGet ed p.1)) = [] := by
    rw [List.filter_eq_nil_iff]
    intro a ha
    simp [h a ha]
  cases ocr <;> simp [hf]

theorem validate_ne_nil (defs : List FieldDefinition) (d : PyDict)
    (f : FieldDefinition) (hf : f ∈ defs) (hreq : f.required = true)
    (hmiss : isMissingVal (pyGet d f.name) = true) : validate defs d ≠ [] := by
  induction defs with
  | nil => simp at hf
  | cons g rest ih =>
    rcases List.mem_cons.mp hf with rfl | hf2
    · simp [validate, hreq, hmiss]
    · intro hc
      simp only [validate] at hc
      rw [List.append_eq_nil, List.append_eq_nil] at hc
      exact ih hf2 hc.2

theorem registry_has_required_field (t : Template)
    (ht : t ∈ registryTemplates) :
    ∃ f ∈ t.fieldDefs, f.required = true := by
  simp only [registryTemplates, List.mem_cons, List.not_mem_nil,
    or_false] at ht
  rcases ht with rfl | rfl | rfl | rfl | rfl | rfl | rfl | rfl <;>
    exact ⟨_, List.mem_cons_self _ _, rfl⟩

/-- C9 (amended): for every registry template, a successful LLM extraction
whose fields are all null yields a built response with overall confidence
0 and status requires review, but the errors are VALIDATION_ERROR entries
for the missing required fields: the LOW_CONFIDENCE branch is shadowed
because every registered template declares required fields, which are
missing when all values are null. -/
theorem all_null_fields_outcome (t : Template) (ht : t ∈ registryTemplates)
    (did fn : String) (llm : ExtractionResult) (ocr : Option OCRResult)
    (thr : ℚ) (hsucc : llm.success = true)
    (hvals : ∀ p ∈ llm.fields, p.2.value = Json.null) :
    (buildResponse did fn t llm ocr thr).map
      (fun r => (r.overallConfidence, r.status, r.errors.isEmpty,
        r.errors.all (fun er => er.code == "VALIDATION_ERROR"))) =
    .ok (0, .requiresReview, false, true) := by
  have hnull : ∀ kv ∈ (llm.fields.map fun p => (p.1, p.2.value)),
      kv.2 = Json.null := by
    intro kv hkv
    rcases List.mem_map.mp hkv with ⟨q, hq, rfl⟩
    exact hvals q hq
  have hpp := registry_postProcess_all_null t ht _ hnull
  have hov : computeOverall (llm.fields.map fun p => (p.1, p.2.confidence))
      (llm.fields.map fun p => (p.1, p.2.value)) ocr = 0 := by
    apply computeOverall_all_null
    intro p hp
    rcases allNull_get _ hnull p.1 with hg | hg <;> simp [nonNullValue, hg]
  have hmiss : ∀ k, isMissingVal
      (pyGet (llm.fields.map fun p => (p.1, p.2.value)) k) = true := by
    intro k
    rcases allNull_get _ hnull k with hg | hg <;> simp [isMissingVal, hg]
  have hve : validate t.fieldDefs
      (llm.fields.map fun p => (p.1, p.2.value)) ≠ [] := by
    rcases registry_has_required_field t ht with ⟨f, hf, hreq⟩
    exact validate_ne_nil _ _ f hf hreq (hmiss f.name)
  simp only [buildResponse, hpp, hov]
  cases hveq : validate t.fieldDefs
      (llm.fields.map fun p => (p.1, p.2.value)) with
  | nil => exact absurd hveq hve
  | cons a as =>
    simp [computeStatusErrors, hsucc, hveq, Except.map, mkValidationError,
      List.all_map, Function.comp]

def llmC9 : ExtractionResult :=
  { documentType := .str "id_document",
    fields := [
      ("full_name", { name := "full_name", value := .null, confidence := 0 }),
      ("aadhaar_number",
        { name := "aadhaar_number", value := .null, confidence := 0 }),
      ("date_of_birth",
        { name := "date_of_birth", value := .null, confidence := 0 })],
    success := true }

def respC9 : ExtractionResponse :=
  { documentId := "c9", status := .requiresReview,
    documentType := .idDocument, filename := "a.png",
    extractedData := [("full_name", .null), ("aadhaar_number", .null),
      ("date_of_birth", .null)],
    fieldConfidences := [("full_name", 0), ("aadhaar_number", 0),
      ("date_of_birth", 0)],
    overallConfidence := 0,
    errors := [
      mkValidationError (reqErrMsg ( fdef "full_name" "Full Name"
        "string" true)),
      mkValidationError (reqErrMsg ( fdef "aadhaar_number" "Aadhaar Number"
        "string" true)),
      mkValidationError (reqErrMsg ( fdef "date_of_birth" "Date of Birth"
        "date" true))],
    requiresReview := true, modelUsed := "" }

/-- C9 counterexample: an all-null successful extraction yields overall
confidence 0 and status requires review, but its error list holds only
VALIDATION_ERROR entries and no LOW_CONFIDENCE error, contrary to the
claim. -/
theorem all_null_low_confidence_counterexample :
    buildResponse "c9" "a.png" aadhaarCardTemplate llmC9 none (4/5) =
      .ok respC9 ∧
    respC9.overallConfidence = 0 ∧
    respC9.status = .requiresReview ∧
    respC9.errors ≠ [] ∧
    respC9.errors.all (fun er => er.code == "VALIDATION_ERROR") = true ∧
    respC9.errors.find? (fun er => er.code == "LOW_CONFIDENCE") = none := by
  refine ⟨by with_unfolding_all rfl, rfl, rfl, by simp [respC9], ?_, ?_⟩ <;>
    with_unfolding_all decide

def llmC9w : ExtractionResult :=
  { documentType := .str "id_document",
    fields := [("member_name",
      { name := "member_name", value := .null, confidence := 0 })],
    success := true }

theorem all_null_fields_outcome_witness :
    llmC9w.success = true ∧
    (buildResponse "w9" "u.png" uanCardTemplate llmC9w none (4/5)).map
      (fun r => (r.overallConfidence, r.status, r.errors.isEmpty,
        r.errors.all (fun er => er.code == "VALIDATION_ERROR"))) =
    .ok (0, .requiresReview, false, true) := by
  refine ⟨rfl, all_null_fields_outcome uanCardTemplate
    (List.mem_cons_self _ _) "w9" "u.png" llmC9w none (4/5) rfl ?_⟩
  intro p hp
  simp only [llmC9w, List.mem_cons, List.not_mem_nil, or_false] at hp
  subst hp
  rfl

/-! ## C8: classification selection -/

theorem le_foldr_max (l : List ℚ) (a : ℚ) : a ≤ l.foldr max a := by
  induction l with
  | nil => exact le_refl a
  | cons x t ih =>
    show a ≤ max x (t.foldr max a)
    exact le_max_of_le_right ih

theorem foldr_max_lift (l : List ℚ) (a b : ℚ) :
    l.foldr max (max a b) = max a (l.foldr max b) := by
  induction l with
  | nil => rfl
  | cons x t ih =>
    show max x (t.foldr max (max a b)) = max a (max x (t.foldr max b))
    rw [ih, max_left_comm]

theorem foldr_max_attained (l : List ℚ) (a : ℚ) :
    l.foldr max a = a ∨ l.foldr max a ∈ l := by
  induction l with
  | nil => exact Or.inl rfl
  | cons x t ih =>
    show (max x (t.foldr max a) = a) ∨ max x (t.foldr max a) ∈ x :: t
    rcases max_choice x (t.foldr max a) with h | h
    · right
      rw [h]
      exact List.mem_cons_self _ _
    · rw [h]
      rcases ih with h2 | h2
      · exact Or.inl h2
      · exact Or.inr (List.mem_cons_of_mem _ h2)

theorem foldr_max_ge_mem (l : List ℚ) (a x : ℚ) (hx : x ∈ l) :
    x ≤ l.foldr max a := by
  induction l with
  | nil => simp at hx
  | cons y t ih =>
    show x ≤ max y (t.foldr max a)
    rcases List.mem_cons.mp hx with rfl | hx2
    · exact le_max_left _ _
    · exact le_max_of_le_right (ih hx2)

theorem selectBest_eq (text : String) (l : List Template) :
    ∀ (best : Template) (bs : ℚ),
    selectBest text best bs l =
      (if bs < (l.map (fun t => classifyScore t text)).foldr max bs
       then (l.find? (fun t => classifyScore t text ==
         (l.map (fun t2 => classifyScore t2 text)).foldr max bs)).getD best
       else best) := by
  induction l with
  | nil =>
    intro best bs
    simp [selectBest]
  | cons t rest ih =>
    intro best bs
    show (if bs < classifyScore t text
      then selectBest text t (classifyScore t text) rest
      else selectBest text best bs rest) = _
    have hMdef : ((t :: rest).map (fun t2 => classifyScore t2 text)).foldr
        max bs = max (classifyScore t text)
          ((rest.map (fun t2 => classifyScore t2 text)).foldr max bs) := rfl
    by_cases hbs : bs < classifyScore t text
    · rw [if_pos hbs, ih t (classifyScore t text)]
      have hlift : (rest.map (fun t2 => classifyScore t2 text)).foldr max
          (classifyScore t text) =
          max (classifyScore t text)
            ((rest.map (fun t2 => classifyScore t2 text)).foldr max bs) := by
        have he : classifyScore t text = max (classifyScore t text) bs :=
          (max_eq_left (le_of_lt hbs)).symm
        rw [he, foldr_max_lift]
        rw [← he]
      rw [hlift, hMdef]
      set M := max (classifyScore t text)
        ((rest.map (fun t2 => classifyScore t2 text)).foldr max bs) with hM
      have hbsM : bs < M := lt_of_lt_of_le hbs (le_max_left _ _)
      rw [if_pos hbsM]
      by_cases hsM : classifyScore t text < M
      · rw [if_pos hsM]
        have hhead : (classifyScore t text == M) = false := by
          simp [ne_of_lt hsM]
        rw [List.find?_cons, hhead]
        have hattain : M ∈ rest.map (fun t2 => classifyScore t2 text) := by
          rcases max_choice (classifyScore t text)
              ((rest.map (fun t2 => classifyScore t2 text)).foldr max bs)
              with h1 | h1
          · rw [← hM] at h1
            rw [h1] at hsM
            exact absurd hsM (lt_irrefl _)
          · rw [← hM] at h1
            rcases foldr_max_attained
                (rest.map (fun t2 => classifyScore t2 text)) bs with h2 | h2
            · rw [h1] at hbsM
              rw [h2] at hbsM
              exact absurd hbsM (lt_irrefl _)
            · rw [h1]
              exact h2
        rcases List.mem_map.mp hattain with ⟨t2, ht2, hs2⟩
        have hfs : (rest.find? (fun t3 => classifyScore t3 text == M)).isSome
            = true := List.find?_isSome.mpr ⟨t2, ht2, by simp [hs2]⟩
        rcases Option.isSome_iff_exists.mp hfs with ⟨r, hr⟩
        rw [hr]
        rfl
      · rw [if_neg hsM]
        have hsEq : classifyScore t text = M :=
          le_antisymm (le_max_left _ _) (not_lt.mp hsM)
        have hhead : (classifyScore t text == M) = true := by simp [hsEq]
        rw [List.find?_cons, hhead]
        rfl
    · rw [if_neg hbs, ih best bs]
      have hsle : classifyScore t text ≤ bs := not_lt.mp hbs
      have hMr : bs ≤ (rest.map (fun t2 => classifyScore t2 text)).foldr
          max bs := le_foldr_max _ _
      have hMeq : max (classifyScore t text)
          ((rest.map (fun t2 => classifyScore t2 text)).foldr max bs) =
          (rest.map (fun t2 => classifyScore t2 text)).foldr max bs :=
        max_eq_right (le_trans hsle hMr)
      rw [hMdef, hMeq]
      by_cases hb2 : bs < (rest.map (fun t2 => classifyScore t2 text)).foldr
          max bs
      · rw [if_pos hb2, if_pos hb2]
        have hhead : (classifyScore t text ==
            (rest.map (fun t2 => classifyScore t2 text)).foldr max bs) =
            false := by
          simp [ne_of_lt (lt_of_le_of_lt hsle hb2)]
        rw [List.find?_cons, hhead]
      · rw [if_neg hb2, if_neg hb2]

/-- Modelled from the spec wording (for comparison with the implemented
selection): the first template in registration order whose score equals
the maximum score over all templates. -/
def specFirstMaxTemplate (ts : List Template) (text : String) :
    Option Template :=
  ts.find? (fun t => classifyScore t text ==
    (ts.map (fun t2 => classifyScore t2 text)).foldr max 0)

/-- C8 (amended): with no hint, classification selects exactly the first
registered template whose score equals the maximum score (first-wins on
ties, and the first template when all scores are zero); a supplied hint
bypasses scoring whenever some registered template category matches it,
returning the first match. A hint matching no template (the unknown hint)
falls through to scoring, which the counterexample shows. -/
theorem classification_selection :
    (∀ text, classifyDocument registryTemplates text none =
      specFirstMaxTemplate registryTemplates text) ∧
    (∀ (text : String) (h : DocumentTypeEnum) (t0 : Template),
      registryTemplates.find? (fun t => t.category.value == h.value) =
        some t0 →
      classifyDocument registryTemplates text (some h) = some t0) := by
  constructor
  · intro text
    show some (selectBest text uanCardTemplate 0 registryTemplates) = _
    rw [selectBest_eq]
    by_cases h0 : (0:ℚ) < (registryTemplates.map
        (fun t2 => classifyScore t2 text)).foldr max 0
    · rw [if_pos h0]
      rcases foldr_max_attained (registryTemplates.map
          (fun t2 => classifyScore t2 text)) 0 with h1 | h1
      · rw [h1] at h0
        exact absurd h0 (lt_irrefl 0)
      · rcases List.mem_map.mp h1 with ⟨t2, ht2, hs2⟩
        have hfs : (registryTemplates.find? (fun t3 => classifyScore t3 text
            == (registryTemplates.map (fun t2 => classifyScore t2 text)).foldr
              max 0)).isSome = true :=
          List.find?_isSome.mpr ⟨t2, ht2, by simp [hs2]⟩
        rcases Option.isSome_iff_exists.mp hfs with ⟨r, hr⟩
        unfold specFirstMaxTemplate
        rw [hr]
        rfl
    · rw [if_neg h0]
      have hM0 : (registryTemplates.map
          (fun t2 => classifyScore t2 text)).foldr max 0 = 0 :=
        le_antisymm (not_lt.mp h0) (le_foldr_max _ _)
      have hhead : classifyScore uanCardTemplate text = 0 := by
        have hmem : classifyScore uanCardTemplate text ∈
            registryTemplates.map (fun t2 => classifyScore t2 text) :=
          List.mem_map_of_mem _ (List.mem_cons_self _ _)
        have h1 := foldr_max_ge_mem _ 0 _ hmem
        rw [hM0] at h1
        exact le_antisymm h1 (classifyScore_nonneg _ _)
      unfold specFirstMaxTemplate
      have hht : (classifyScore uanCardTemplate text ==
          (registryTemplates.map (fun t2 => classifyScore t2 text)).foldr
            max 0) = true := by
        simp [hhead, hM0]
      show some uanCardTemplate = List.find? _ (uanCardTemplate :: _)
      rw [List.find?_cons, hht]
  · intro text h t0 hfind
    show (match registryTemplates.find?
        (fun t => t.category.value == h.value) with
      | some t => some t
      | none => scoringSelect registryTemplates text) = some t0
    rw [hfind]

/-- C8 counterexample: with the hint unknown, no registered template
category matches, and classification falls back to scoring: the text
aadhaar uidai selects the Aadhaar template, whose category id_document
does not match the hint, so scoring was not bypassed and no
category-matching template was selected. -/
theorem hint_bypass_counterexample :
    (classifyDocument registryTemplates "aadhaar uidai"
      (some .unknown)).map (fun t => t.name) = some "AadhaarCardTemplate" ∧
    registryTemplates.find?
      (fun t => t.category.value == DocumentTypeEnum.unknown.value) = none ∧
    aadhaarCardTemplate.category.value ≠ DocumentTypeEnum.unknown.value := by
  refine ⟨by with_unfolding_all decide, ?_, by with_unfolding_all decide⟩
  rw [List.find?_eq_none]
  intro x hx
  fin_cases hx <;> with_unfolding_all decide

theorem classification_selection_witness :
    classifyDocument registryTemplates "transcript gpa" none =
      specFirstMaxTemplate registryTemplates "transcript gpa" ∧
    classifyDocument registryTemplates "" (some .certificate) =
      some certificateTemplate := by
  have hfind : registryTemplates.find?
      (fun t => t.category.value == DocumentTypeEnum.certificate.value) =
      some certificateTemplate := by with_unfolding_all rfl
  exact ⟨classification_selection.1 "transcript gpa",
    classification_selection.2 "" .certificate certificateTemplate hfind⟩

/-! ## C7: idempotence of template post-processing -/

theorem stripTitleStep_stable : StepStable stripTitleStep := by
  intro v w hv
  cases v with
  | str s =>
    simp only [stripTitleStep] at hv
    injection hv with hv
    injection hv with hv
    subst hv
    show stripTitleStep (.str (pyTitle (pyStrip s))) = _
    simp only [stripTitleStep]
    rw [name_norm_idem]
  | null => exact absurd hv (by simp [stripTitleStep])
  | bool b => exact absurd hv (by simp [stripTitleStep])
  | int n => exact absurd hv (by simp [stripTitleStep])
  | float q => exact absurd hv (by simp [stripTitleStep])
  | arr l => exact absurd hv (by simp [stripTitleStep])
  | obj l => exact absurd hv (by simp [stripTitleStep])

theorem uanNumberStep_stable : StepStable uanNumberStep := by
  intro v w hv
  unfold uanNumberStep at hv
  by_cases hd : pyIsDigit (removeSpaceDash (pyStr v)) = true
  · rw [if_pos hd] at hv
    injection hv with hv
    injection hv with hv
    subst hv
    have hall : (removeSpaceDash (pyStr v)).data.all isDigitC = true := by
      unfold pyIsDigit at hd
      exact ((Bool.and_eq_true _ _).mp hd).2
    show (if pyIsDigit (removeSpaceDash (removeSpaceDash (pyStr v))) = true
        then Except.ok (some (Json.str (removeSpaceDash (removeSpaceDash
          (pyStr v)))))
        else Except.ok none) =
      Except.ok (some (Json.str (removeSpaceDash (pyStr v))))
    rw [removeSpaceDash_of_digits _ hall, if_pos hd]
  · rw [if_neg hd] at hv
    injection hv with hv
    exact absurd hv (by simp)

theorem aadhaarNumberStep_stable : StepStable aadhaarNumberStep := by
  intro v w hv
  unfold aadhaarNumberStep at hv
  by_cases hd : (removeSpaceDash (pyStr v)).length = 12 ∧
      pyIsDigit (removeSpaceDash (pyStr v)) = true
  · rw [if_pos hd] at hv
    injection hv with hv
    injection hv with hv
    subst hv
    have hall : (removeSpaceDash (pyStr v)).data.all isDigitC = true := by
      have := hd.2
      unfold pyIsDigit at this
      exact ((Bool.and_eq_true _ _).mp this).2
    show (if (removeSpaceDash (groupAadhaar (removeSpaceDash
          (pyStr v)))).length = 12 ∧ pyIsDigit (removeSpaceDash
          (groupAadhaar (removeSpaceDash (pyStr v)))) = true
        then Except.ok (some (Json.str (groupAadhaar (removeSpaceDash
          (groupAadhaar (removeSpaceDash (pyStr v)))))))
        else Except.ok none) =
      Except.ok (some (Json.str (groupAadhaar (removeSpaceDash (pyStr v)))))
    rw [removeSpaceDash_groupAadhaar _ hall, if_pos hd]
  · rw [if_neg hd] at hv
    injection hv with hv
    exact absurd hv (by simp)

theorem panNumberStep_stable : StepStable panNumberStep := by
  intro v w hv
  unfold panNumberStep at hv
  injection hv with hv
  injection hv with hv
  subst hv
  show panNumberStep (.str (pyStrip (pyUpper (pyStr v)))) = _
  unfold panNumberStep
  show Except.ok (some (Json.str (pyStrip (pyUpper (pyStrip (pyUpper
    (pyStr v))))))) = _
  rw [upper_norm_idem]

theorem genderStepHindi_stable : StepStable genderStepHindi := by
  intro v w hv
  simp only [genderStepHindi] at hv
  split at hv
  · injection hv with hv
    injection hv with hv
    subst hv
    with_unfolding_all rfl
  · split at hv
    · injection hv with hv
      injection hv with hv
      subst hv
      with_unfolding_all rfl
    · injection hv with hv
      exact absurd hv (by simp)

theorem genderStepPlain_stable : StepStable genderStepPlain := by
  intro v w hv
  simp only [genderStepPlain] at hv
  split at hv
  · injection hv with hv
    injection hv with hv
    subst hv
    with_unfolding_all rfl
  · split at hv
    · injection hv with hv
      injection hv with hv
      subst hv
      with_unfolding_all rfl
    · injection hv with hv
      exact absurd hv (by simp)

/-- C7 (amended): post-processing is idempotent for the UAN, Aadhaar, PAN,
Voter ID and Driving License templates. The generic ID template and the
certificate template violate idempotence (see the counterexample: a
whitespace-only full name is emptied by normalization and re-combined from
the name parts on the second pass, and each pass strips one more
boilerplate title prefix); the transcript GPA step re-parses the string
form of a float and is outside the scope of this statement. -/
theorem post_process_idempotent_core :
    ∀ t ∈ [uanCardTemplate, aadhaarCardTemplate, panCardTemplate,
      voterIDTemplate, drivingLicenseTemplate],
      ∀ d d2, t.postProcess d = .ok d2 → t.postProcess d2 = .ok d2 := by
  intro t ht d d2 h
  simp only [List.mem_cons, List.not_mem_nil, or_false] at ht
  rcases ht with rfl | rfl | rfl | rfl | rfl
  · have h2 : (stepOnKey "member_name" stripTitleStep d).bind
        (stepOnKey "uan_number" uanNumberStep) = .ok d2 := h
    show (stepOnKey "member_name" stripTitleStep d2).bind
      (stepOnKey "uan_number" uanNumberStep) = .ok d2
    exact two_step_idem (by decide) stripTitleStep_stable
      uanNumberStep_stable h2
  · have h2 : (stepOnKey "aadhaar_number" aadhaarNumberStep d).bind
        (stepOnKey "gender" genderStepHindi) = .ok d2 := h
    show (stepOnKey "aadhaar_number" aadhaarNumberStep d2).bind
      (stepOnKey "gender" genderStepHindi) = .ok d2
    exact two_step_idem (by decide) aadhaarNumberStep_stable
      genderStepHindi_stable h2
  · have h2 : stepOnKey "pan_number" panNumberStep d = .ok d2 := h
    show stepOnKey "pan_number" panNumberStep d2 = .ok d2
    exact stepOnKey_idem panNumberStep_stable h2
  · have h2 : Except.ok d = .ok d2 := h
    injection h2 with h2
    subst h2
    rfl
  · have h2 : Except.ok d = .ok d2 := h
    injection h2 with h2
    subst h2
    rfl

def dC7a : PyDict := [("full_name", .str ""), ("first_name", .str "Bob")]

def dC7b : PyDict := [("full_name", .str "Bob"), ("first_name", .str "Bob")]

def dC7c : PyDict := [("certificate_title", .str "Certificate of Java")]

def dC7d : PyDict := [("certificate_title", .str "Java")]

/-- C7 counterexample: the generic ID template maps a whitespace-only full
name with a nonempty first name to one dictionary on the first pass and a
different one on the second pass (the emptied full name is re-combined),
and the certificate template strips one more boilerplate prefix on every
pass; both break idempotence. -/
theorem post_process_idempotent_counterexample :
    idDocumentTemplate.postProcess
      [("full_name", .str "   "), ("first_name", .str "bob")] = .ok dC7a ∧
    idDocumentTemplate.postProcess dC7a = .ok dC7b ∧
    dC7a ≠ dC7b ∧
    certificateTemplate.postProcess
      [("certificate_title", .str "Certificate of Certificate of Java")] =
      .ok dC7c ∧
    certificateTemplate.postProcess dC7c = .ok dC7d ∧
    dC7c ≠ dC7d := by
  refine ⟨by with_unfolding_all rfl, by with_unfolding_all rfl, ?_,
    by with_unfolding_all rfl, by with_unfolding_all rfl, ?_⟩
  · intro hc
    have h2 := congrArg (fun d => pyGet d "full_name") hc
    have h3 : some (Json.str "") = some (Json.str "Bob") := h2
    injection h3 with h3
    injection h3 with h3
    exact absurd h3 (by decide)
  · intro hc
    have h2 := congrArg (fun d => pyGet d "certificate_title") hc
    have h3 : some (Json.str "Certificate of Java") =
        some (Json.str "Java") := h2
    injection h3 with h3
    injection h3 with h3
    exact absurd h3 (by decide)

theorem post_process_idempotent_witness :
    uanCardTemplate.postProcess [("member_name", .str "john doe")] =
      .ok [("member_name", .str "John Doe")] ∧
    uanCardTemplate.postProcess [("member_name", .str "John Doe")] =
      .ok [("member_name", .str "John Doe")] := by
  have h1 : uanCardTemplate.postProcess [("member_name", .str "john doe")] =
      .ok [("member_name", .str "John Doe")] := by with_unfolding_all rfl
  exact ⟨h1, post_process_idempotent_core uanCardTemplate
    (List.mem_cons_self _ _) _ _ h1⟩
